import Mathlib

/-!
# Verification of `SmartAccidentPredictor` (src/app/fallback.py)

A shallow embedding in Lean 4 of the risk-scoring core of the
Road_Accident_Prediction_Model repository, together with theorems settling the
frozen claims about it.

Modelling conventions:
* Python floats are modelled as exact rationals (`ℚ`); every constant appearing
  in the source (0.1, 0.95, …) is exact in decimal, so the algebra of the
  scoring pipeline is represented exactly.  `round(x, n)` is modelled as
  round-half-to-even on `x * 10^n`.
* Python machine integers inside the hash / PRNG are modelled as `ℕ` with an
  explicit `% 2^32` (`m32`) wherever 32-bit wraparound can occur.
* The seeded randomness of the source (`random.seed(seed)` followed by
  `random.uniform(a, b)` calls) is modelled concretely: `hashlib.md5` and
  CPython's Mersenne-Twister (`init_by_array` seeding, `genrand_res53`
  double extraction) are embedded below, so every prediction is a closed,
  computable value.
* Dictionary lookups that can raise `KeyError` are modelled with `Option`;
  the top-level `try/except` of `predict_accident_risk` maps a failure to the
  structured `{'success': False, 'error': …, 'location': …}` result.
* The `timestamp` field (wall clock) and the constant `model_info` block are
  not part of the embedded result record: the former is I/O, the latter is a
  fixed literal independent of the computation.
-/

/-- The 32-bit truncation: the `& 0xffffffff` / C `uint32_t` wraparound. -/
def m32 (x : ℕ) : ℕ := x % 4294967296

/-- The 32-bit left rotation (used by MD5). -/
def rotl32 (x n : ℕ) : ℕ := m32 (x <<< n) ||| (x >>> (32 - n))

/-- The 32-bit bitwise complement. -/
def not32 (x : ℕ) : ℕ := 4294967295 ^^^ x

/-! ## MD5 (hashlib.md5), over a list of bytes -/

/-- The 64 MD5 sine-derived constants `K[i] = ⌊2³² · |sin (i+1)|⌋`. -/
def md5K : List ℕ :=
  [3614090360, 3905402710, 606105819, 3250441966, 4118548399, 1200080426,
   2821735955, 4249261313, 1770035416, 2336552879, 4294925233, 2304563134,
   1804603682, 4254626195, 2792965006, 1236535329, 4129170786, 3225465664,
   643717713, 3921069994, 3593408605, 38016083, 3634488961, 3889429448,
   568446438, 3275163606, 4107603335, 1163531501, 2850285829, 4243563512,
   1735328473, 2368359562, 4294588738, 2272392833, 1839030562, 4259657740,
   2763975236, 1272893353, 4139469664, 3200236656, 681279174, 3936430074,
   3572445317, 76029189, 3654602809, 3873151461, 530742520, 3299628645,
   4096336452, 1126891415, 2878612391, 4237533241, 1700485571, 2399980690,
   4293915773, 2240044497, 1873313359, 4264355552, 2734768916, 1309151649,
   4149444226, 3174756917, 718787259, 3951481745]

/-- The MD5 per-step rotation amounts. -/
def md5S : List ℕ :=
  [7, 12, 17, 22, 7, 12, 17, 22, 7, 12, 17, 22, 7, 12, 17, 22,
   5, 9, 14, 20, 5, 9, 14, 20, 5, 9, 14, 20, 5, 9, 14, 20,
   4, 11, 16, 23, 4, 11, 16, 23, 4, 11, 16, 23, 4, 11, 16, 23,
   6, 10, 15, 21, 6, 10, 15, 21, 6, 10, 15, 21, 6, 10, 15, 21]

/-- One MD5 step: state `(A,B,C,D)`, step index `i`, message words `M`. -/
def md5Step (st : ℕ × ℕ × ℕ × ℕ) (i : ℕ) (M : List ℕ) : ℕ × ℕ × ℕ × ℕ :=
  let (A, B, C, D) := st
  let F :=
    if i < 16 then (B &&& C) ||| (not32 B &&& D)
    else if i < 32 then (D &&& B) ||| (not32 D &&& C)
    else if i < 48 then B ^^^ C ^^^ D
    else C ^^^ (B ||| not32 D)
  let g :=
    if i < 16 then i
    else if i < 32 then (5 * i + 1) % 16
    else if i < 48 then (3 * i + 5) % 16
    else (7 * i) % 16
  let tmp := m32 (A + F + md5K.getD i 0 + M.getD g 0)
  (D, m32 (B + rotl32 tmp (md5S.getD i 0)), B, C)

/-- Decode a 64-byte chunk into 16 little-endian 32-bit words. -/
def md5Words (chunk : List ℕ) : List ℕ :=
  (List.range 16).map fun j =>
    chunk.getD (4 * j) 0 + chunk.getD (4 * j + 1) 0 * 256 +
      chunk.getD (4 * j + 2) 0 * 65536 + chunk.getD (4 * j + 3) 0 * 16777216

/-- One MD5 round paired with its round counter (so that the 64 rounds are an
iterate of a single function). -/
def md5Round (M : List ℕ) (sti : (ℕ × ℕ × ℕ × ℕ) × ℕ) : (ℕ × ℕ × ℕ × ℕ) × ℕ :=
  (md5Step sti.1 sti.2 M, sti.2 + 1)

/-- Process one 64-byte chunk, updating the running digest state. -/
def md5Chunk (st : ℕ × ℕ × ℕ × ℕ) (chunk : List ℕ) : ℕ × ℕ × ℕ × ℕ :=
  let M := md5Words chunk
  let (a, b, c, d) := ((md5Round M)^[64] (st, 0)).1
  let (A, B, C, D) := st
  (m32 (A + a), m32 (B + b), m32 (C + c), m32 (D + d))

/-- MD5 padding: `0x80`, zeros to 56 mod 64, then the 8-byte little-endian
bit length of the original message. -/
def md5Pad (msg : List ℕ) : List ℕ :=
  let ml := 8 * msg.length
  let padLen := (55 + 64 - msg.length % 64) % 64
  msg ++ [128] ++ List.replicate padLen 0 ++
    (List.range 8).map fun j => (ml >>> (8 * j)) % 256

/-- Split a list into consecutive 64-byte chunks, structurally recursing on a
fuel bound (the list length suffices: each step drops 64 > 0 elements of a
non-empty list). -/
def chunks64Go : ℕ → List ℕ → List (List ℕ)
  | 0, _ => []
  | _, [] => []
  | fuel + 1, a :: t => (a :: t).take 64 :: chunks64Go fuel ((a :: t).drop 64)

/-- Split a list into consecutive 64-byte chunks (length is a multiple of 64
after padding). -/
def chunks64 (l : List ℕ) : List (List ℕ) := chunks64Go l.length l

/-- The four 32-bit MD5 state words after hashing `msg`. -/
def md5State (msg : List ℕ) : ℕ × ℕ × ℕ × ℕ :=
  (chunks64 (md5Pad msg)).foldl md5Chunk
    (1732584193, 4023233417, 2562383102, 271733878)

/-- Source expression `int(hashlib.md5(msg).hexdigest()[:8], 16)`: the first four digest bytes
(the little-endian bytes of state word `A`) read as a big-endian integer. -/
def md5Head8 (msg : List ℕ) : ℕ :=
  let A := (md5State msg).1
  (A % 256) * 16777216 + (A / 256 % 256) * 65536 +
    (A / 65536 % 256) * 256 + A / 16777216 % 256

/-- UTF-8 encoding of one Unicode code point. -/
def utf8Char (c : ℕ) : List ℕ :=
  if c < 128 then [c]
  else if c < 2048 then [192 + c / 64, 128 + c % 64]
  else if c < 65536 then [224 + c / 4096, 128 + c / 64 % 64, 128 + c % 64]
  else [240 + c / 262144, 128 + c / 4096 % 64, 128 + c / 64 % 64, 128 + c % 64]

/-- UTF-8 bytes of a string (`str.encode()`). -/
def utf8Bytes (s : String) : List ℕ :=
  s.data.flatMap fun c => utf8Char c.toNat

/-! ## Mersenne Twister MT19937 (CPython `random`)

`random.seed(n)` for a non-negative 32-bit int `n` runs `init_by_array` on the
single-word key `[n]` over the state produced by `init_genrand(19650218)`;
`random.random()` is `genrand_res53`: `(a >> 5) * 2²⁶ + (b >> 6)` over `2⁵³`
for two consecutive tempered outputs `a`, `b`.

The 624-word `uint32_t mt[624]` state array is represented as a single
natural number holding the words in little-endian 32-bit fields: word `i`
is `(S >> (32 i)) mod 2³²`.  Every loop is the iterate of a single step
function on a `(state, index)` pair, mirroring the C loop body. -/

/-- Word `i` of a packed state: `mt[i]`. -/
def w32 (S i : ℕ) : ℕ := (S >>> (32 * i)) % 4294967296

/-- Packed state with word `i` replaced by `v` (for `v < 2³²`): `mt[i] = v`. -/
def setw32 (S i v : ℕ) : ℕ := S - (w32 S i <<< (32 * i)) + (v <<< (32 * i))

/-- One iteration of the `init_genrand` loop:
`mt[i] = (1812433253 * (mt[i-1] ^ (mt[i-1] >> 30)) + i) & 0xffffffff`. -/
def mtInitStep (st : ℕ × ℕ) : ℕ × ℕ :=
  let (S, i) := st
  let prev := w32 S (i - 1)
  (setw32 S i (m32 (1812433253 * (prev ^^^ (prev >>> 30)) + i)), i + 1)

/-- Seeding step `init_genrand(s)`: `mt[0] = s & 0xffffffff`, then the loop for
`i = 1 .. 623`. -/
def mtInitGenrand (s : ℕ) : ℕ := (mtInitStep^[623] (m32 s, 1)).1

/-- One iteration of the first `init_by_array` mixing loop:
`mt[i] = ((mt[i] ^ ((mt[i-1] ^ (mt[i-1] >> 30)) * 1664525)) + key[j] + j)`
with the single-word key `[seed]` (so `key[j] + j = seed`), followed by the
wraparound `mt[0] = mt[623]; i = 1` after index 623. -/
def mtMix1Step (seed : ℕ) (st : ℕ × ℕ) : ℕ × ℕ :=
  let (S, i) := st
  let prev := w32 S (i - 1)
  let S2 := setw32 S i (m32 ((w32 S i ^^^ m32 ((prev ^^^ (prev >>> 30)) * 1664525)) + seed))
  if 624 ≤ i + 1 then (setw32 S2 0 (w32 S2 623), 1) else (S2, i + 1)

/-- One iteration of the second `init_by_array` mixing loop:
`mt[i] = ((mt[i] ^ ((mt[i-1] ^ (mt[i-1] >> 30)) * 1566083941)) - i)` on
`uint32_t` (the subtraction is modelled as adding `2³² - i`), with the same
wraparound. -/
def mtMix2Step (st : ℕ × ℕ) : ℕ × ℕ :=
  let (S, i) := st
  let prev := w32 S (i - 1)
  let S2 := setw32 S i
    (m32 ((w32 S i ^^^ m32 ((prev ^^^ (prev >>> 30)) * 1566083941)) + (4294967296 - i)))
  if 624 ≤ i + 1 then (setw32 S2 0 (w32 S2 623), 1) else (S2, i + 1)

/-- Seeding step `init_by_array([seed])`: CPython's seeding for an int seed below 2³²:
the first mixing loop runs `max(624, len(key)) = 624` times starting at
index 1, the second 623 times, then `mt[0] = 0x80000000`. -/
def mtInitByArray (seed : ℕ) : ℕ :=
  setw32 (mtMix2Step^[623] ((mtMix1Step seed)^[624] (mtInitGenrand 19650218, 1))).1
    0 2147483648

/-- One iteration of the MT19937 "twist" at index `kk`:
`y = (mt[kk] & 0x80000000) | (mt[(kk+1)%624] & 0x7fffffff);`
`mt[kk] = mt[(kk+397)%624] ^ (y >> 1) ^ (y&1 ? 0x9908b0df : 0)`. -/
def mtTwistStep (st : ℕ × ℕ) : ℕ × ℕ :=
  let (S, kk) := st
  let y := (w32 S kk &&& 2147483648) ||| (w32 S ((kk + 1) % 624) &&& 2147483647)
  let mag := if y % 2 = 1 then 2567483615 else 0
  (setw32 S kk (w32 S ((kk + 397) % 624) ^^^ (y >>> 1) ^^^ mag), kk + 1)

/-- The full twist: regenerate the 624-word block in place. -/
def mtTwist (S : ℕ) : ℕ := (mtTwistStep^[624] (S, 0)).1

/-- The MT19937 tempering transform (a 32-bit output). -/
def mtTemper (y : ℕ) : ℕ :=
  let y1 := y ^^^ (y >>> 11)
  let y2 := y1 ^^^ ((y1 <<< 7) &&& 2636928640)
  let y3 := y2 ^^^ ((y2 <<< 15) &&& 4022730752)
  m32 (y3 ^^^ (y3 >>> 18))

/-- The `k`-th 32-bit output of the generator seeded with `seed` (the first
call after seeding triggers one twist; we never consume more than 624). -/
def mtOutput (seed k : ℕ) : ℕ :=
  mtTemper (w32 (mtTwist (mtInitByArray seed)) k)

/-- The `k`-th `random.random()` double of the seeded generator, as the exact
rational `(a >> 5)·2²⁶ + (b >> 6)` over `2⁵³`. -/
def randomDouble (seed k : ℕ) : ℚ :=
  ((mtOutput seed (2 * k) >>> 5) * 67108864 + (mtOutput seed (2 * k + 1) >>> 6) : ℕ) /
    9007199254740992

/-- The `k`-th `random.uniform(a, b)` draw: `a + (b - a) * random()`. -/
def pyUniform (seed k : ℕ) (a b : ℚ) : ℚ := a + (b - a) * randomDouble seed k

/-! ## Python `round` -/

/-- Round a rational to the nearest integer, ties to even. -/
def roundHalfEven (x : ℚ) : ℤ :=
  let f := ⌊x⌋
  let r := x - f
  if r < 1 / 2 then f
  else if 1 / 2 < r then f + 1
  else if f % 2 = 0 then f else f + 1

/-- Python's `round(x, n)` on the exact rational value of `x`. -/
def pyRound (x : ℚ) (n : ℕ) : ℚ := (roundHalfEven (x * 10 ^ n) : ℚ) / 10 ^ n

/-! ## The `SmartAccidentPredictor` risk tables (`self.risk_weights`,
`self.location_risk_base`) -/

/-- Table `risk_weights['vehicle_type']` (looked up with default 0.3). -/
def vehicleTypeWeights : String → Option ℚ
  | "Car" => some 0.2
  | "Bike" => some 0.7
  | "Truck" => some 0.5
  | "Bus" => some 0.4
  | "Auto-rickshaw" => some 0.6
  | _ => none

/-- Table `risk_weights['driver_age']`. -/
def driverAgeWeights : String → Option ℚ
  | "under_25" => some 0.6
  | "25_40" => some 0.2
  | "40_60" => some 0.1
  | "over_60" => some 0.4
  | _ => none

/-- Table `risk_weights['experience']`. -/
def experienceWeights : String → Option ℚ
  | "under_2" => some 0.7
  | "2_5" => some 0.4
  | "5_10" => some 0.2
  | "over_10" => some 0.1
  | _ => none

/-- Table `risk_weights['license_valid']`. -/
def licenseValidWeights : String → Option ℚ
  | "yes" => some 0.0
  | "no" => some 0.8
  | _ => none

/-- Table `risk_weights['seatbelt']`. -/
def seatbeltWeights : String → Option ℚ
  | "yes" => some 0.0
  | "no" => some 0.6
  | _ => none

/-- Table `risk_weights['weather']` (looked up with default 0.3). -/
def weatherWeights : String → Option ℚ
  | "Clear" => some 0.1
  | "Rainy" => some 0.6
  | "Foggy" => some 0.8
  | "Snowy" => some 0.9
  | "Stormy" => some 1.0
  | _ => none

/-- Table `risk_weights['road_surface']`. -/
def roadSurfaceWeights : String → Option ℚ
  | "Dry" => some 0.1
  | "Wet" => some 0.5
  | "Icy" => some 0.9
  | "Muddy" => some 0.7
  | _ => none

/-- Table `risk_weights['visibility']`. -/
def visibilityWeights : String → Option ℚ
  | "high" => some 0.1
  | "medium" => some 0.4
  | "low" => some 0.8
  | _ => none

/-- Table `risk_weights['light_condition']`. -/
def lightConditionWeights : String → Option ℚ
  | "Daylight" => some 0.1
  | "Night_with_lights" => some 0.4
  | "Night_without_lights" => some 0.7
  | _ => none

/-- Table `risk_weights['road_type']`. -/
def roadTypeWeights : String → Option ℚ
  | "Highway" => some 0.6
  | "City_Road" => some 0.3
  | "Rural_Road" => some 0.5
  | _ => none

/-- Table `risk_weights['road_design']`. -/
def roadDesignWeights : String → Option ℚ
  | "Straight" => some 0.2
  | "Curved" => some 0.5
  | "Junction" => some 0.8
  | "Roundabout" => some 0.4
  | _ => none

/-- Table `risk_weights['traffic_volume']`. -/
def trafficVolumeWeights : String → Option ℚ
  | "Low" => some 0.2
  | "Medium" => some 0.4
  | "High" => some 0.7
  | _ => none

/-- Table `risk_weights['time_of_day']`. -/
def timeOfDayWeights : String → Option ℚ
  | "Morning" => some 0.3
  | "Afternoon" => some 0.2
  | "Evening" => some 0.5
  | "Night" => some 0.6
  | _ => none

/-- Table `risk_weights['day_of_week']` (the key is always valid: it is
`'weekend' if is_weekend else 'weekday'`). -/
def dayOfWeekWeight (is_weekend : Bool) : ℚ := if is_weekend then 0.5 else 0.3

/-- Table `risk_weights['area_type']`. -/
def areaTypeWeights : String → Option ℚ
  | "Urban" => some 0.4
  | "Suburban" => some 0.3
  | "Rural" => some 0.5
  | _ => none

/-- Table `risk_weights['overtaking']`. -/
def overtakingWeights : String → Option ℚ
  | "yes" => some 0.7
  | "no" => some 0.0
  | _ => none

/-- Table `risk_weights['alcohol']`. -/
def alcoholWeights : String → Option ℚ
  | "yes" => some 1.0
  | "no" => some 0.0
  | _ => none

/-- Table `risk_weights['phone_usage']`. -/
def phoneUsageWeights : String → Option ℚ
  | "yes" => some 0.8
  | "no" => some 0.0
  | _ => none

/-- Table `self.location_risk_base`, in dict insertion order. -/
def location_risk_base : List (String × ℚ) :=
  [("mumbai", 0.6), ("delhi", 0.7), ("bangalore", 0.5), ("chennai", 0.5),
   ("kolkata", 0.6), ("hyderabad", 0.5), ("pune", 0.5), ("ahmedabad", 0.6),
   ("default_urban", 0.5), ("default_rural", 0.4)]

/-- Python's `needle in haystack` on strings (contiguous substring test). -/
def strContains (haystack needle : String) : Bool :=
  decide (List.IsInfix needle.data haystack.data)

/-! ## The conditions dictionary -/

/-- The `conditions` dictionary with every key present (the `.get` defaults of
the source only fire for absent keys, which the claims do not exercise). -/
structure Conditions where
  vehicle_type : String
  driver_age : ℕ
  experience : ℕ
  license_valid : String
  seatbelt : String
  weather : String
  road_surface : String
  visibility : String
  light_condition : String
  road_type : String
  road_design : String
  traffic_volume : String
  speed_limit : ℕ
  current_speed : ℕ
  time_of_day : String
  is_weekend : Bool
  area_type : String
  overtaking : String
  alcohol : String
  phone_usage : String
  accident_history : ℕ
deriving DecidableEq, Repr

/-! ## The helper methods of `SmartAccidentPredictor` -/

/-- Helper `_generate_seed`: seed string `f"{location}_{weather}_{time_of_day}_{road_type}"`. -/
def seedString (location : String) (c : Conditions) : String :=
  location ++ "_" ++ c.weather ++ "_" ++ c.time_of_day ++ "_" ++ c.road_type

/-- Helper `_generate_seed`: `int(md5(seed_string).hexdigest()[:8], 16)`. -/
def generate_seed (location : String) (c : Conditions) : ℕ :=
  md5Head8 (utf8Bytes (seedString location c))

/-- Helper `_get_location_risk`. -/
def get_location_risk (location : String) : ℚ :=
  let location_lower := location.toLower
  match location_risk_base.find? (fun p => strContains location_lower p.1) with
  | some p => p.2
  | none =>
    let urban_keywords := ["city", "metro", "downtown", "central", "commercial"]
    let rural_keywords := ["village", "countryside", "rural", "outskirts"]
    if urban_keywords.any (fun k => strContains location_lower k) then 0.5
    else if rural_keywords.any (fun k => strContains location_lower k) then 0.4
    else 0.45

/-- Helper `_calculate_age_risk`. -/
def calculate_age_risk (age : ℕ) : String :=
  if age < 25 then "under_25"
  else if age ≤ 40 then "25_40"
  else if age ≤ 60 then "40_60"
  else "over_60"

/-- Helper `_calculate_experience_risk`. -/
def calculate_experience_risk (experience : ℕ) : String :=
  if experience < 2 then "under_2"
  else if experience ≤ 5 then "2_5"
  else if experience ≤ 10 then "5_10"
  else "over_10"

/-- Helper `_calculate_speed_risk`. -/
def calculate_speed_risk (current_speed speed_limit : ℕ) : ℚ :=
  if current_speed ≤ speed_limit then 0.0
  else min (((current_speed - speed_limit : ℕ) : ℚ) * 0.01) 1.0

/-- Lines 149–168 of the accumulation ("vehicle and driver risks"): vehicle
type (defaulted lookup), bucketed age and experience, license, seatbelt.
`none` models a `KeyError` from a strict dictionary lookup. -/
def vehicleDriverRisk? (c : Conditions) : Option ℚ := do
  let w_vehicle := (vehicleTypeWeights c.vehicle_type).getD 0.3
  let w_age ← driverAgeWeights (calculate_age_risk c.driver_age)
  let w_exp ← experienceWeights (calculate_experience_risk c.experience)
  let w_license ← licenseValidWeights c.license_valid
  let w_seatbelt ← seatbeltWeights c.seatbelt
  return w_vehicle + w_age + w_exp + w_license + w_seatbelt

/-- Lines 170–181 ("environmental conditions"): weather (defaulted lookup),
road surface, visibility, light condition. -/
def environmentalRisk? (c : Conditions) : Option ℚ := do
  let w_weather := (weatherWeights c.weather).getD 0.3
  let w_surface ← roadSurfaceWeights c.road_surface
  let w_visibility ← visibilityWeights c.visibility
  let w_light ← lightConditionWeights c.light_condition
  return w_weather + w_surface + w_visibility + w_light

/-- Lines 183–196 ("road and traffic" plus "speed risk"). -/
def roadTrafficRisk? (c : Conditions) : Option ℚ := do
  let w_road_type ← roadTypeWeights c.road_type
  let w_design ← roadDesignWeights c.road_design
  let w_traffic ← trafficVolumeWeights c.traffic_volume
  return w_road_type + w_design + w_traffic +
    calculate_speed_risk c.current_speed c.speed_limit

/-- Lines 198–208 ("time factors" plus "area type"). -/
def timeAreaRisk? (c : Conditions) : Option ℚ := do
  let w_time ← timeOfDayWeights c.time_of_day
  let w_day := dayOfWeekWeight c.is_weekend
  let w_area ← areaTypeWeights c.area_type
  return w_time + w_day + w_area

/-- Lines 210–221 ("additional risk factors"): overtaking, alcohol, phone
usage, accident history. -/
def additionalRisk? (c : Conditions) : Option ℚ := do
  let w_overtaking ← overtakingWeights c.overtaking
  let w_alcohol ← alcoholWeights c.alcohol
  let w_phone ← phoneUsageWeights c.phone_usage
  return w_overtaking + w_alcohol + w_phone + (c.accident_history : ℚ) * 0.1

/-- The full additive accumulation of `total_risk` (lines 147–221), starting
from the base location risk.  The dictionary lookups occur in source order
(a `KeyError` anywhere yields `none`); rational addition is associative and
commutative, so grouping the running sum by source section preserves the
value exactly. -/
def totalRisk? (location : String) (c : Conditions) : Option ℚ := do
  let t1 ← vehicleDriverRisk? c
  let t2 ← environmentalRisk? c
  let t3 ← roadTrafficRisk? c
  let t4 ← timeAreaRisk? c
  let t5 ← additionalRisk? c
  return get_location_risk location + t1 + t2 + t3 + t4 + t5

/-! ## The scoring pipeline (lines 223–292) -/

/-- Line 224: `normalized_risk = min(max(total_risk / 8.0, 0.05), 0.95)`. -/
def normalizedRisk (total_risk : ℚ) : ℚ := min (max (total_risk / 8) 0.05) 0.95

/-- Line 227: `random_factor = random.uniform(0.95, 1.05)` — the first uniform
draw of the freshly seeded generator. -/
def randomFactor (seed : ℕ) : ℚ := pyUniform seed 0 0.95 1.05

/-- Line 228: `final_risk = min(normalized_risk * random_factor, 0.95)`. -/
def finalRisk (seed : ℕ) (total_risk : ℚ) : ℚ :=
  min (normalizedRisk total_risk * randomFactor seed) 0.95

/-- Lines 230–245: `(severity, severity_code, color, risk_level)`. -/
def severityInfo (final_risk : ℚ) : String × ℕ × String × String :=
  if final_risk < 0.3 then ("Low", 0, "#28a745", "Low Risk")
  else if final_risk < 0.6 then ("Medium", 1, "#ffc107", "Medium Risk")
  else ("High", 2, "#dc3545", "High Risk")

/-- Lines 247–259: the per-bucket probability triple `(low, medium, high)`
before normalization; the second and third uniform draws. -/
def rawProbs (seed : ℕ) (final_risk : ℚ) (severity_code : ℕ) : ℚ × ℚ × ℚ :=
  if severity_code = 0 then
    let prob_low := final_risk + pyUniform seed 1 0.4 0.5
    let prob_medium := (1 - prob_low) * pyUniform seed 2 0.6 0.8
    (prob_low, prob_medium, 1 - prob_low - prob_medium)
  else if severity_code = 1 then
    let prob_medium := final_risk + pyUniform seed 1 0.2 0.3
    let prob_low := (1 - prob_medium) * pyUniform seed 2 0.3 0.6
    (prob_low, prob_medium, 1 - prob_low - prob_medium)
  else
    let prob_high := final_risk + pyUniform seed 1 0.1 0.2
    let prob_medium := (1 - prob_high) * pyUniform seed 2 0.4 0.7
    (1 - prob_high - prob_medium, prob_medium, prob_high)

/-- Lines 261–265: divide each probability by their sum. -/
def normProbs (p : ℚ × ℚ × ℚ) : ℚ × ℚ × ℚ :=
  let total_prob := p.1 + p.2.1 + p.2.2
  (p.1 / total_prob, p.2.1 / total_prob, p.2.2 / total_prob)

/-- Line 268: `confidence = min(max(final_risk + random.uniform(0.1, 0.2), 0.6), 0.95)`
— the fourth uniform draw. -/
def confidenceOf (seed : ℕ) (final_risk : ℚ) : ℚ :=
  min (max (final_risk + pyUniform seed 3 0.1 0.2) 0.6) 0.95

/-- The full recommendation list built by `_generate_recommendations` before
the final truncation: the fixed ordered checklist (adverse weather, speeding,
night driving, two-wheeler gear, seatbelt, alcohol, phone usage,
severity-based closing remarks), each match appending its strings in
checklist order. -/
def recommendationChecklist (c : Conditions) (severity_code : ℕ) : List String :=
  (if c.weather ∈ ["Rainy", "Foggy", "Snowy", "Stormy"] then
    ["🌧️ Reduce speed due to adverse weather conditions",
     "🚗 Increase following distance"] else []) ++
  (if c.current_speed > c.speed_limit then
    ["⚠️ Reduce speed to within " ++ toString c.speed_limit ++ " km/h limit"]
   else []) ++
  (if strContains c.light_condition "Night" then
    ["🌙 Use headlights and drive cautiously at night"] else []) ++
  (if c.vehicle_type = "Bike" then ["🏍️ Wear helmet and protective gear"] else []) ++
  (if c.seatbelt = "no" then ["🔒 Always wear seatbelt for safety"] else []) ++
  (if c.alcohol = "yes" then ["🚫 Never drive under influence of alcohol"] else []) ++
  (if c.phone_usage = "yes" then ["📱 Avoid phone usage while driving"] else []) ++
  (if severity_code ≥ 2 then
    ["⚠️ Consider postponing travel if possible",
     "🚨 Extra caution required - high risk conditions"]
   else if severity_code = 1 then ["⚡ Drive with increased attention"] else [])

/-- Helper `_generate_recommendations`: the ordered checklist, truncated to 6
(`recommendations[:6]`). -/
def generate_recommendations (c : Conditions) (severity_code : ℕ) : List String :=
  (recommendationChecklist c severity_code).take 6

/-- Helper `_identify_risk_factors`: the ordered checklist of contributing factors. -/
def identify_risk_factors (c : Conditions) : List String :=
  (if c.weather ≠ "Clear" then ["Weather: " ++ c.weather] else []) ++
  (if c.road_surface ≠ "Dry" then ["Road Surface: " ++ c.road_surface] else []) ++
  (if c.visibility ≠ "high" then ["Poor Visibility"] else []) ++
  (if strContains c.light_condition "Night" then ["Night Driving"] else []) ++
  (if c.traffic_volume = "High" then ["Heavy Traffic"] else []) ++
  (if c.current_speed > c.speed_limit then ["Speeding"] else []) ++
  (if c.road_design ∈ ["Junction", "Curved"] then
    ["Road Design: " ++ c.road_design] else []) ++
  (if c.driver_age < 25 then ["Young Driver"] else []) ++
  (if c.experience < 2 then ["Inexperienced Driver"] else [])

/-- The probabilities sub-dictionary of the result. -/
structure Probabilities where
  low : ℚ
  medium : ℚ
  high : ℚ
deriving DecidableEq, Repr

/-- The successful result dictionary of `predict_accident_risk`
(minus the wall-clock `timestamp` and the constant `model_info`). -/
structure OkResult where
  location : String
  predicted_severity : String
  severity_code : ℕ
  confidence : ℚ
  risk_score : ℚ
  probabilities : Probabilities
  color : String
  recommendations : List String
  risk_factors : List String
deriving DecidableEq, Repr

/-- The result of `predict_accident_risk`: either the `success: True`
dictionary or the `success: False` dictionary `(error, location)` produced by
the `except` clause. -/
inductive PredictResult where
  | ok : OkResult → PredictResult
  | failure : (error : String) → (location : String) → PredictResult
deriving DecidableEq, Repr

/-- The `success: True` result dictionary built by lines 223–292 once the
risk accumulation produced `total_risk`. -/
def okResultOf (location : String) (c : Conditions) (total_risk : ℚ) : OkResult :=
  let seed := generate_seed location c
  let final_risk := finalRisk seed total_risk
  let info := severityInfo final_risk
  let severity_code := info.2.1
  let probs := normProbs (rawProbs seed final_risk severity_code)
  { location := location
    predicted_severity := info.2.2.2
    severity_code := severity_code
    confidence := pyRound (confidenceOf seed final_risk) 3
    risk_score := pyRound (final_risk * 100) 1
    probabilities :=
      { low := pyRound probs.1 3
        medium := pyRound probs.2.1 3
        high := pyRound probs.2.2 3 }
    color := info.2.2.1
    recommendations := generate_recommendations c severity_code
    risk_factors := identify_risk_factors c }

/-- Main entry `predict_accident_risk(location, conditions)` (lines 136–302). -/
def predict_accident_risk (location : String) (c : Conditions) : PredictResult :=
  match totalRisk? location c with
  | none => PredictResult.failure "Prediction calculation failed" location
  | some total_risk => PredictResult.ok (okResultOf location c total_risk)

/-! ## Observation helpers (projections out of a `PredictResult`, used to
state properties of the returned dictionaries) -/

/-- The `risk_score` field of a successful result (0 on failure). -/
def riskScoreOf : PredictResult → ℚ
  | .ok r => r.risk_score
  | .failure _ _ => 0

/-- The `probabilities` field of a successful result (zeros on failure). -/
def probabilitiesOf : PredictResult → Probabilities
  | .ok r => r.probabilities
  | .failure _ _ => ⟨0, 0, 0⟩

/-- The sum of the three returned probabilities. -/
def probSum (p : PredictResult) : ℚ :=
  (probabilitiesOf p).low + (probabilitiesOf p).medium + (probabilitiesOf p).high

/-- Whether the result is the structured `success: False` failure object. -/
def isFailure : PredictResult → Bool
  | .ok _ => false
  | .failure _ _ => true

/-! ## Concrete inputs and precomputed PRNG states used by witnesses and
counterexamples -/

/-- The conditions dictionary holding every field at the defaults the source
reads via `.get` (vehicle Car, age 30, experience 5, licensed, belted, Clear,
Dry, high, Daylight, City_Road, Straight, Medium, 40 of 50 km/h, Afternoon,
weekday, Urban, no overtaking, no alcohol, no phone, no history). -/
def defaultConditions : Conditions :=
  { vehicle_type := "Car", driver_age := 30, experience := 5, license_valid := "yes",
    seatbelt := "yes", weather := "Clear", road_surface := "Dry", visibility := "high",
    light_condition := "Daylight", road_type := "City_Road", road_design := "Straight",
    traffic_volume := "Medium", speed_limit := 50, current_speed := 40,
    time_of_day := "Afternoon", is_weekend := false, area_type := "Urban",
    overtaking := "no", alcohol := "no", phone_usage := "no", accident_history := 0 }

/-- The default conditions with `time_of_day` set to Morning. -/
def morningConditions : Conditions := { defaultConditions with time_of_day := "Morning" }

/-- The default conditions with `alcohol` set to yes (all other fields at
the neutral defaults). -/
def alcoholConditions : Conditions := { defaultConditions with alcohol := "yes" }

/-- A maximal-risk conditions dictionary: every categorical field at its
highest weight and a large accident history, so that the accumulated total
far exceeds the 7.6 needed to pin the normalized risk at its 0.95 cap. -/
def maxRiskConditions : Conditions :=
  { vehicle_type := "Bike", driver_age := 18, experience := 0, license_valid := "no",
    seatbelt := "no", weather := "Stormy", road_surface := "Icy", visibility := "low",
    light_condition := "Night_without_lights", road_type := "Highway",
    road_design := "Junction", traffic_volume := "High", speed_limit := 50,
    current_speed := 200, time_of_day := "Night", is_weekend := true,
    area_type := "Rural", overtaking := "yes", alcohol := "yes", phone_usage := "yes",
    accident_history := 10 }

/-- The padded single MD5 block of `"Mumbai_Clear_Morning_City_Road"`. -/
def morningBlock : List ℕ := [77, 117, 109, 98, 97, 105, 95, 67, 108, 101, 97, 114, 95, 77, 111, 114, 110, 105, 110, 103, 95, 67, 105, 116, 121, 95, 82, 111, 97, 100, 128, 0, 0, 0, 0, 0, 0, 0, 0, 0, 0, 0, 0, 0, 0, 0, 0, 0, 0, 0, 0, 0, 0, 0, 0, 0, 240, 0, 0, 0, 0, 0, 0, 0]

/-- The 16 message words of that block. -/
def morningWords : List ℕ := [1651340621, 1130326369, 1918985580, 1919896927, 1735289198, 1953055583, 1867669369, 8414305, 0, 0, 0, 0, 0, 0, 240, 0]

/-- The packed MT19937 state after `init_genrand(19650218)` (the fixed
starting point of `init_by_array`). -/
def mtStateInit : ℕ := 62685089405509111925910797243914719854890513935494713084094713797279779630627496305943786046941309007281293105221577504421353501605599255248785149356818580886163074212016138319710181437623915839386196989339984175865611290932895638485827512283879634622589907034847096838980553398268338905605705315464924834076955485269257682765843392777664062904318116756644819538761883164862381873685805923051342196114892111881287659915424456096361326051748180740843339721465950121631833352165428366344241754810081140762710579390137795215443629123183303201044796731629341661542390258966032612552126580439913324626563213547393121217728067632048719897064596438939163041106934301355643192260261867872030533878188557727018817797219012064641958276099544136480610826250078810896212505254064619595899307426216931651016613164877613570296351724055264357110051005104450572173606849938075379012356137114572525910752676385589168436483206759652170097284388598518122222819376116616668668677988651997615236221431416155794821321118852088948452164682783715959922435191327367306488124638818446090532334864386359317233873012285172875896330714873881780586230596002778688422250420590175698633544778262136505069053046737202152515000629854634631225453245996997340762744567896897683212149150732909707719966588817675821630380251456266588599804209831660991462715440400663143017564651072677052296295930367391822676512661642282350234567553218318066651318510488484545671729568971887621684270732981974442582657502555066960418690332945218280990034155505553171409775830458482159957769211244505225186771766058316021949327301666418107251589707938065072144733816368743637495699897181007119363672460040974223449086641663004605507793014252452324150238463715514559124307431648478948480649031081489229583165223570218974125422263886587593014744330199975749832650568652404661542746543584685860761547297457070273167102314576665676644281998277713093924236551494770138725647883566971887853912300960949802636372591951717316415323846182747445131420005722224687602711525724505110953736568981699982016588947035894059736087136235396798804019434387781559696138411966704777989194870090051835909943079457649936020314680876367897457337488804889342331824364904005266943816631681518612047693872607083945336048154993001716858914072302230374294986610531277637599664647525761147514008899238689946802093944865612982597431648203028809043429562401771290925843222821220221381984318518256971016750121270624021542153515130386081256853244444367484914891752438843250797295149886721543902585582757118492217204960123203770309672216674331373413106027454841661967870247822106376003696537006476355273043676224973894002060133928765135363584693312631060562155459381152426642778209514491263275588735458188352331628933634618912177576995916817414488324819680108333628484452298807271017999262374749573133359090629722111402666396222385680310709557844049479865847370371052888681758484468279513921172987571336140289500145715018352119752770038578015899178947425013401300127437407370742417936980607757405410607208376626705322894782663757703548808362869195819947150150865798288136994832911439410269353230208345410503242199606186650417333579047848825834242257112060317620885151293421378661990197161958015730358249113963865616811805417654957899792836277351433146683316643158745577273742588847277405020330699298979666450169324546781433015633218213248018986767013905101885085728066131985273947793365444250280947765884488609302913437528001802423347517836456663978922564542901160075954132077499502061844004777463229898312792357201472450520034421742281215395838957029567457078867297742321364249618062920323524100796395855490398720473188748064226082130624085325443879193454095100721902723688608983702297802922465778395428510531587340343771240068168890882622394112252370643121994567113348850616779414952571984309063927162547038575769391208822294299053225776973195785292510157058775147687493667385905281728614066936870793483631104130486096422866739022254251631022238998824784309871214211336594149372534724828516536519652291847191320934127662041939033266344757810255450761243406685982638804631309022215852991706323223872506356963395668107287976200691035733250165615782065576159415303394415966535152327550107294310945533761757937224536792146711105700674959937207778503501562879445241463662142281185819506210181780721218897488871995890898495582077564387715740371190275817001449471008660140255770382875594805433223352833476546594040372715841292252983175468170554585838014797017976570586587751089146553833551413146641975370517778330202052282190648141351908509904289169596729111939424597802445523234111653813513351586367960175769546506050051493655326103823629699245586418016468660736051425039803522537493270385743437525903109563398688573456345292160567787373069854610200635728800730405759403691875432721043746233636765094325962472698626875833148826372580999341547042531665331710768365982359935219565301595187067772247975847412037958098451506998773182171027695752045356894447709388159633645629545493246019135820915900506906032640701290570506299065346661219735445730896769091171352761432210047450382980030625592142825700677633624952217795344145832513082782540989616413040988227257601039794195623143595351637462190706636535912449334420058581521218743569834717812580171279915160794789675762903718339466089866492140118823551337811927493524761760551434001520245324751568861558716803095718510972066599595072196209156923318071322517301806566620458899402166430591631348363311478802800521980525250372511467674969151489645720009661369785217086930227581405674315978920044798755483144811069077253851302610194739624245401270682864202663540116818822475326676741780611737275972111438408802370422377608919256570335384654037352344114105999356653180812503717835632673409647782213628400383443178293619326757139369589058612122088577237252104060778375287897543799460272211546791798613974575310224299012205778134871255296492395729078221387894808011355820153110205338707003138385845672884757408327786763143168159295742358655797897448897721796416755370

/-- The packed state after the first `init_by_array` mixing loop for
seed 121957498. -/
def mtStateMixA : ℕ := 81902677635551847877921541564092200402965818229202034187022005910992688813183565428181421869244998863960949632904327802521891120069703119059554825251110384313411894577968242507650865420219308001521228712464896970358666014688599508354318959617354644635437755483370277505938879145242503225122059008473276915018440587646463777220524737611858655933831420571143816656001683477099824576200814457482512439822365910438601291945051408422174965146275292212510538432541839079636137275322057462912738442021249139678657165033774665226850088958258058990839180489439598056254773286894020906715901715216664352179231219299432440572364023951383141433957749779396956968348201053541479406676901894503956079185460911539582608747303761162290033030652108771425079425852373923579447549231341339030146348035113020333575145232112197095793902628438832941061290385689293479544118880404865640618467726676877089977320619481678842207670275896354051420924805940146438954514726966539838352904432905566821365703840265437316356534284198186443754315496185288834906192556260980382530266015663000345929956304885202284116730176675108081638366615253516717339461660534427639663244383466871712267588379715932040309506833035379814200704544794258363919132620529228630230592363480016821799152901274000744952225711481924976981509434749906488174227848146701353029376976138971857486661250669685257428276532722277939557087931077752023425682531064423904661512014713000478101484056832544446919134940297843606387900322443061203020653732473601499254099555680274390396426911329857242249285093566895461842876864044410827663357086968408546563267530454864200464463216985672954023120075072751771582297087724496838267907217161547847145937760739886408174500015094806485088024839445219162232211280697989245980917083732427626041928874748282386698154962048718912653018506217366041217857378243255799915878396061735507293792423751632464336608771920855629011320042055448854116564985246031835758382861649939307379199924771335338922961536985101173842634099762187585428954896803603540306560463730712987596823914601491164280684877933079823615870439186800128217895867533149827619961305636361387364275397359379724866262764760114481576574558483996526889226900225221674232788719374807196828317181522709174698493083236669522681120909873332588922339578494218276687215611861691887016012318441800609339062897123228183668456540098286484535822190375644787751446703514622555762788641299661388445339340070280557111708915481259887928334586080090077294921172726460845432206687374378769601910590467045084965699953224876178917498830335551557205409142887194385472255580365251130374086309727170627149622074400601943381802711675810607105378333480641691555724779128613313343778481192881179814598278985592840215157855401002938658085128378160706070268563434981886229787247042696615810400505800430729368548816939571832077769350600283986905064310560534870759946225458599948919918261967334141621907829608624819679228079277812635258948856098499350404925357268938460584359725093116441123109464077566834071041150257180776906568217638446398895063331070751460333391859554302328301980780679041044045489477557025298569386836537817575247059008817435882224597683352960831321716996598528433516942011442411815813251845320883852102263299664231781570212815692303063533012437770179254045801400957124871686385730135961420722273450652316631430819730936406646283246301563517871541010656776375579344862313484051649152219805133687380797169625842065281516452372193517071445223547284148852934674358980447378698913933801598188913978509229486713946971612973690604316456890192925952073854377089708145115737795674701939984215552694261970193959538395928269265985845600967352800324555343134099063899970153276947928814533535699406124874568111918977861947788588039632751351664434915104926994061579358350868179525980904228353262063521503675125222014018031596610968083432821569765869160004028492600106582096968003732014853989547117248077994652789776233938713791846449441015168478615980275690922377388340768537865733379790739094911311444518999416176134781880663144067142754900016992843430434376786676107335477528676324846802866652821250988192678344080149170641706703498732105198583150878986157511984803867148634881758794029224360661515206454793928744196972189099061313760989800502366847507789890713950937682482090356163886773244891119482144843798054107818027615068484022278041779803368090954493924372164382802653325752991985410504222458791039159224863098695685931804714108993309759745246646486798886952014442474415755377529287533557051223814014544972035618604070244920028558143732680959653675434695747472256180352480347200708446633858637147318577885758172822514879653620086893966634392329303120256458260109435040268345280880455175804982737918960794501750489482420841984834643230633103369862162503541776975452788477893826683573345380431399877920115742378310310359256887113030741073820677767388142273467213457337979938821187658429068191490573852358004754978647907955963245240005695762370662803698450985675832076077921812601395913070901439275625441485302876670329651383553892910770845749484325988325141311807567590363317283278356948578640557768706289619787926476027834008207222248678618516638926989941199585490651409940555428946163206727976570247492007173956956163101666996265812287283993427275881212453104546567708561001887737751389600616787442452921346536075197457754810085155835992005484677904102759926244218770198028075053476762692751927157678981894441314458833236572332428235376249533186100445277166636360078233358523051336382075822337325184808930674752955513484244182908845654657329583832940262572347342727691772540083955761720087999574554959278347457308772881217458723899833110292548954065521809520301343074961890230445433728825124075881936955071884338643514460081846449356724783887414586065459117923623495557459939197153301074605232921187169058932008705997193654147000034461436184516010035611534595421261165223454811246782917625663697330995133838173967517812593708289112971161349596424444137996067296842614090372417235023171006986614

/-- The packed state after the second `init_by_array` mixing loop for
seed 121957498. -/
def mtStateMixB : ℕ := 51448424118609013985377530928827819969145831167751702418346872815296057213668765654340424385415400774959340011549658874626756686756176534341574402259691379146246954160413183009551498558976400980005014885972571617860321224077912038380051918379940453943011332294466630363328489594330836549041125539040211461384305774334076732482268104872525557664749365275078047712503275060583657393344627339449208468974075034982056857495287418907060489867846655187399440491810167684120270452153982656559130433207446037168731148333233620431311543053879945415933946806361379942934182675543162835833857988629098946328752811642882764294223359559831092131470035719401894150632952094306082280189672077926960766747557509943998999837777263626216765249371064012374483786067976549422467409238544840574761834806954435174932707575235861965097695005686873034988264062322106881933538156588179465469093028996747487917872301389731820952479959803686644440949609169180227974102210453756023598895545855871287128468490718513247448760806513228566571324981732778984538248287622029718387448456917682098696043068989147225853560508424455159764393160844025430847423982221291960099913908845214196194165790312431435982245464768262895684912359577688267445080136148781517793944069616993101408621599853059913410740068260309369036489988700459924340745947568344117277352598588288165133057476413720995582539518467936836233857267281840757139722181475586759657588887648334400549324655213426627640391805349961742986968654754895109932604286287923755412984283800082472438207776509573416898610472516016502463362300834158947056714315877719859736803437014059346919040263165665639638178542396294578802084646492417411396818059785606565421574305141533505259884285498574455447669307132470659849942859513690366379206199954453408554119543398722247398130026022718423162758896397557855856790770755848494504027625854205151684913282886120135146614734481447914478326786693977547717418874403370023552112659148823027352184575584368618371201525659458562652643144306033265246470346513308348061086218532183452407414016121649785293760890091731213282324969094978646092205329524997790961736222648140935759846436545615544571156737507077741347450964659170452279186617218104303597615002147731005256493255554780199307314481872617320191220221104636080045114651589236559529328106078639489418071966668659138778683587518164263906440197724136373405866622893368726026766492316085032282868026851338281771057390953102410859917499221260869636761189980960634589390739279643311855771018963681747180177310589149577706431113552839541711277539394169832665473953964222118360977568797699312238316825458107112492489358338914161630751373538607655264101141456524727255195954920917545878096691084648150125218299348620196899032131480304921288904662604093513131586088834262439407204349325763135329461843492329461848081258141406423639642002888950317462061572284667610536189695018643306707341601625435804064118059805436698644884907534635138188232364682375716596912282658969278512967241977680724417438707043129118830248721179748518213161669806760611387595504485285503152107483508624324166653695018643387958281819965298545001365473882550177173620854247089092475724158591144327822717663685251642192844102812845806266863641699215507607738072253917240565640132366237285531800166707499865641122405056673684981801858468564122284418615766127142998574257646936872015051251390775492848274055437148568892308588006085302576597764362942748804040101209780746353048483084847280489949107719869743625552833141852889190170248633078956914116882458037578042773670564197147749391639140396835821461201200330633035122933396927698333470994729626299391429897836908602013469882951644379422662412407749802389996764683402355638255933957678616868087575222707025290882696067111106108965074491267628513568537059943091961647044396634219060418768956744680949433224731516833296936111649412528007357057046369753104008199484611734104072449912269499362258053318140653780730261644961436317642366139435815410029584788264146989150570626428167787760323873520572956805859793605070179693164269351236928189266884765287935440475594274906299455513930222217732329983849534195422361510438613519141307707158252163273098276716769448240561033750273316816957342357481345912152095637662734625540580694195446407129749012255661737275454554751082213436312045517103994781922049637800434570652903483900014439082174988657537277928155544527215758164638245658936968911447143784420304247396658734529722432275206085003752450651662944017747196617367635271626413672849205584993538999905483898432240785512175158880714197711980623474435464845683579408100288276485282174974112795401419313522867345486496659353088846367777493914467838856216248782457033388362852366198798725365123769580722679844122666298603866173796927604251756233341680267747049406548662928016909732610353510509122085156714558618004520023717171013375217227604646690647981889461485852165686755713987899380682702285908628684746043656915340277175246543552326356920068816631837227878885267601523809807343623036629784878343010211623688212866628177139895904148336851649243190748257656979368820250760555151863943803589085807838858488866863445561247947829999179473206405488474018240463392151646159055073373327294518492931862737300822219399933529898490402933247447313807996097532467637720734614572308059873721299571822012063403230823011392338008217951481947554464038532623001036604204408867410785585645852864334020249206844373413404526463068755024221167602479434485851515020074203293238494763346573335060355298568954663002868908335630821770396359699404528933529531701113599290529368910016179599723411503813605423719774014730743903703281096362607842579884065155810797358030384232054321895656206025346208067965752683377192738822258564998332145053078175553374252843830123947512327645793937163014500747280648745215030505706745575951507534041866549118828511608362702298623705080585036955489026111724983752146121764993501745321197679535172114488178071963850394644239725504920623390218510868196973808142719011866549765631904410253590981

/-- The packed seeded state for seed 121957498 (`mt[0] = 0x80000000`). -/
def mtStateSeeded : ℕ := 51448424118609013985377530928827819969145831167751702418346872815296057213668765654340424385415400774959340011549658874626756686756176534341574402259691379146246954160413183009551498558976400980005014885972571617860321224077912038380051918379940453943011332294466630363328489594330836549041125539040211461384305774334076732482268104872525557664749365275078047712503275060583657393344627339449208468974075034982056857495287418907060489867846655187399440491810167684120270452153982656559130433207446037168731148333233620431311543053879945415933946806361379942934182675543162835833857988629098946328752811642882764294223359559831092131470035719401894150632952094306082280189672077926960766747557509943998999837777263626216765249371064012374483786067976549422467409238544840574761834806954435174932707575235861965097695005686873034988264062322106881933538156588179465469093028996747487917872301389731820952479959803686644440949609169180227974102210453756023598895545855871287128468490718513247448760806513228566571324981732778984538248287622029718387448456917682098696043068989147225853560508424455159764393160844025430847423982221291960099913908845214196194165790312431435982245464768262895684912359577688267445080136148781517793944069616993101408621599853059913410740068260309369036489988700459924340745947568344117277352598588288165133057476413720995582539518467936836233857267281840757139722181475586759657588887648334400549324655213426627640391805349961742986968654754895109932604286287923755412984283800082472438207776509573416898610472516016502463362300834158947056714315877719859736803437014059346919040263165665639638178542396294578802084646492417411396818059785606565421574305141533505259884285498574455447669307132470659849942859513690366379206199954453408554119543398722247398130026022718423162758896397557855856790770755848494504027625854205151684913282886120135146614734481447914478326786693977547717418874403370023552112659148823027352184575584368618371201525659458562652643144306033265246470346513308348061086218532183452407414016121649785293760890091731213282324969094978646092205329524997790961736222648140935759846436545615544571156737507077741347450964659170452279186617218104303597615002147731005256493255554780199307314481872617320191220221104636080045114651589236559529328106078639489418071966668659138778683587518164263906440197724136373405866622893368726026766492316085032282868026851338281771057390953102410859917499221260869636761189980960634589390739279643311855771018963681747180177310589149577706431113552839541711277539394169832665473953964222118360977568797699312238316825458107112492489358338914161630751373538607655264101141456524727255195954920917545878096691084648150125218299348620196899032131480304921288904662604093513131586088834262439407204349325763135329461843492329461848081258141406423639642002888950317462061572284667610536189695018643306707341601625435804064118059805436698644884907534635138188232364682375716596912282658969278512967241977680724417438707043129118830248721179748518213161669806760611387595504485285503152107483508624324166653695018643387958281819965298545001365473882550177173620854247089092475724158591144327822717663685251642192844102812845806266863641699215507607738072253917240565640132366237285531800166707499865641122405056673684981801858468564122284418615766127142998574257646936872015051251390775492848274055437148568892308588006085302576597764362942748804040101209780746353048483084847280489949107719869743625552833141852889190170248633078956914116882458037578042773670564197147749391639140396835821461201200330633035122933396927698333470994729626299391429897836908602013469882951644379422662412407749802389996764683402355638255933957678616868087575222707025290882696067111106108965074491267628513568537059943091961647044396634219060418768956744680949433224731516833296936111649412528007357057046369753104008199484611734104072449912269499362258053318140653780730261644961436317642366139435815410029584788264146989150570626428167787760323873520572956805859793605070179693164269351236928189266884765287935440475594274906299455513930222217732329983849534195422361510438613519141307707158252163273098276716769448240561033750273316816957342357481345912152095637662734625540580694195446407129749012255661737275454554751082213436312045517103994781922049637800434570652903483900014439082174988657537277928155544527215758164638245658936968911447143784420304247396658734529722432275206085003752450651662944017747196617367635271626413672849205584993538999905483898432240785512175158880714197711980623474435464845683579408100288276485282174974112795401419313522867345486496659353088846367777493914467838856216248782457033388362852366198798725365123769580722679844122666298603866173796927604251756233341680267747049406548662928016909732610353510509122085156714558618004520023717171013375217227604646690647981889461485852165686755713987899380682702285908628684746043656915340277175246543552326356920068816631837227878885267601523809807343623036629784878343010211623688212866628177139895904148336851649243190748257656979368820250760555151863943803589085807838858488866863445561247947829999179473206405488474018240463392151646159055073373327294518492931862737300822219399933529898490402933247447313807996097532467637720734614572308059873721299571822012063403230823011392338008217951481947554464038532623001036604204408867410785585645852864334020249206844373413404526463068755024221167602479434485851515020074203293238494763346573335060355298568954663002868908335630821770396359699404528933529531701113599290529368910016179599723411503813605423719774014730743903703281096362607842579884065155810797358030384232054321895656206025346208067965752683377192738822258564998332145053078175553374252843830123947512327645793937163014500747280648745215030505706745575951507534041866549118828511608362702298623705080585036955489026111724983752146121764993501745321197679535172114488178071963850394644239725504920623390218510868196973808142719011866549765631904410016677888

/-- The packed state after the twist, for seed 121957498. -/
def mtStateTwisted : ℕ := 39612762336972145749271804821746949966931769281946141736792860112872826000401715283009842724698387466376155069792647524113800584351279881066654870120409216997732521363916422716995276357280784568224514127709767513174207263334202178322395020002537759781628205529662618275818609030378350100779943895990256757572466262779858078445438561917329476125045300882909957371162702520304928066289084455938424934521286387169342758649752754939433973561247071470463524628970195050380107232722038004838093240872331174120498862783768393883425538077077109849205239879205797368820395606621307050838576526700793186817550225651313856551299746328032474322550106197949082721155743670943139313352340034871687515868140321364481758159599856294124834998799686772069223018104876936679267192476579958020436846633935407328363291876055930690629319390754523776971588385419030682648043203320026464124352209188368047664393272852257738276072401209354836350048808401235360816907627529604435265018556400128142023067178544257219254076149405421293254155778414818528776520503101813162570635581650395485406686269340959627949228624009908573146121686218878230367631395926817414614717769903451572908009741886711480610500950118933357597075929204582245494636416873250219386612836521556666982326611716401914052494630960510619359129027124744224509426193059270946618437196981851864042465124394425174617349462443230616073679369691851590423424689621718040751827828750901450863759910470327030275510571524298288390927541873799135616138622682765766149765376799398024535270419831232133271544542343957180409471893214784106488888636396015309628866611392608766638307954356561275104688383593207049803399313286480313384945848638607426799055253367822530680680825835092483443738604818184852086171467236110120212651607740980130209630483772580183157559729667536141702430365365289082444770010052012655208657531822164688454550384631607172027628617406229953256677865271244056721393647833895550379514246283712130875487226604310091470043776112814801494333073261851178097863971874528491038374585179065356100707910720108199515613019567675502279438718373053996673568972287864513890961632573318069541603589705603232450501441662276177511353950339052615802904947429475688461958440097112903601759114557774973971644687426982990992063130272530338061481864921987072872402405171622488726039656720449670582163384055746523115720663738056084882980104640654204493455086266048289061833139752889056091900263476728143932708078339296717658232783333737398759862107759312654764849601821950491539382759095396319433893268596626750941976443527499311325923974107477021872152476294852301139905434697595745553165296037900825797311634042026259844149647246800916142994351080132013353014018489029937690290485552477215651586242469626432058194090280928438368371723985456684239534550108436097617620146474205286419085749356192203395642264552270903738854340721418323592323668090932996005705319407350231090903432335828806679931117508753058492170083877262546441213679828562746134766976064259904042628288076982967260842271122007682200790677142425635034040380075121840723364627450617260949856115132373878271144748760936533906587358442084783371253937986116483993720793599663155653998185936260941868673848046104326099841382625518359997139422942559260383307473658047791765681667680079717776559125857640752075213797338485496629701069111016287097813821272140401124527098654901193579493615977635637197959621937862047611586831969602784924273581228150227836807288910779947979031041301313773159312447679459497078085933683098357519540676640862354395247530118030990315597290207063813071942967008511329181457314007343528207302574748646379682764601096273678087236764848143699377027343361163817724490431367938939901134045481778492165907582231906299589659323979257412197430271199391067776782882376020329188619131161533507412846782310897373856568963988190049143053072989896395051613337707846229149649612968731927788536757784432102649244273166662545117411957432166773020938003850898650235901193199274171884170724417675144252610897685880081201275138566997206819950071700699905283706834107070310844617104456455546034316961899122439210510719857351541922938792529095388365862381452342498298707675046637389463516221752466972338622215515848672484741778628276520502473655321496521559860854603881126008299143025189487486928155541102375154727848034908977458351210024008370889240495196251969759253622630138224184205644375623428785382572066405968633252849078818752967666567967245829873765471048745696106479770744509679802889624564568619522843333727452740484918465453546293006681004843116884301787583492789546381435275266159904519550052211044887020638535447234602651448292404265638677868259637566392645125770951498818226036147821235765289012644173803204752604468543621547061297246138735060202680350565611733773659369549690445152639313463814901326685387189033139324931309337516127881561915038790127530348347170221720198280340274340721164072021262072536280734562266975639046871144030958729502805521406699067105059718310440234383849529848930453755442851456766207698340240906573203153525829784716428298793471364865088173268049892950535338082303570634614846599253892037322424748583830425274951837476941676246751888779853130193463636544569868599402776805193697827304539888902726038295115986082163148410426046407163909833543935853478690345402988143420549865348892308736914640871807361173694261078581942222345509067534383324202301792704656091393502776499593002311075415435604261531332210540169172629116665546164602252386988260190951706421374217952803157552022504148923650446986199738455754016533085006875206893802886163966913493125319699720908129779352682981663734831310562516057551960203073024405435355685906392862104740634795360036110065654616001277434578782486774862789706628716418257941429746356788578831720564302011651864214504010303111309447345175698547249463792390233728564419026109706898170562062380964029263988889771153516138603871141562416815773635748106719432008797480563190409455178418913821824545194158588003216939883597744574123827682121811777

/-! ## The enumerated domains -/

/-- All strict-lookup categorical fields lie in their enumerated domains
(`vehicle_type` and `weather` need no constraint: their lookups carry the
neutral default 0.3).  The numeric fields are non-negative by their `ℕ`
type. -/
def validConditions (c : Conditions) : Prop :=
  c.license_valid ∈ ["yes", "no"] ∧
  c.seatbelt ∈ ["yes", "no"] ∧
  c.road_surface ∈ ["Dry", "Wet", "Icy", "Muddy"] ∧
  c.visibility ∈ ["high", "medium", "low"] ∧
  c.light_condition ∈ ["Daylight", "Night_with_lights", "Night_without_lights"] ∧
  c.road_type ∈ ["Highway", "City_Road", "Rural_Road"] ∧
  c.road_design ∈ ["Straight", "Curved", "Junction", "Roundabout"] ∧
  c.traffic_volume ∈ ["Low", "Medium", "High"] ∧
  c.time_of_day ∈ ["Morning", "Afternoon", "Evening", "Night"] ∧
  c.area_type ∈ ["Urban", "Suburban", "Rural"] ∧
  c.overtaking ∈ ["yes", "no"] ∧
  c.alcohol ∈ ["yes", "no"] ∧
  c.phone_usage ∈ ["yes", "no"]

instance (c : Conditions) : Decidable (validConditions c) := by
  unfold validConditions
  infer_instance


/-! # Theorems

## Range facts for the seeded uniform draws -/

/-- Every tempered generator output fits in 32 bits. -/
theorem mtOutput_lt (seed k : ℕ) : mtOutput seed k < 4294967296 := by
  simp only [mtOutput, mtTemper, m32]
  exact Nat.mod_lt _ (by norm_num)

/-- Every `random.random()` draw is non-negative. -/
theorem randomDouble_nonneg (seed k : ℕ) : 0 ≤ randomDouble seed k := by
  unfold randomDouble
  positivity

/-- Every `random.random()` draw is below 1: the 53-bit numerator is below `2⁵³`. -/
theorem randomDouble_lt_one (seed k : ℕ) : randomDouble seed k < 1 := by
  unfold randomDouble
  rw [div_lt_one (by norm_num)]
  have h1 : mtOutput seed (2 * k) >>> 5 < 134217728 := by
    rw [Nat.shiftRight_eq_div_pow]
    exact (Nat.div_lt_iff_lt_mul (by norm_num)).mpr (by
      have := mtOutput_lt seed (2 * k); norm_num; omega)
  have h2 : mtOutput seed (2 * k + 1) >>> 6 < 67108864 := by
    rw [Nat.shiftRight_eq_div_pow]
    exact (Nat.div_lt_iff_lt_mul (by norm_num)).mpr (by
      have := mtOutput_lt seed (2 * k + 1); norm_num; omega)
  have : (mtOutput seed (2 * k) >>> 5) * 67108864 + (mtOutput seed (2 * k + 1) >>> 6)
      < 9007199254740992 := by omega
  exact_mod_cast this

/-- Every `random.uniform(a, b)` draw lies in `[a, b)` when `a < b`. -/
theorem pyUniform_mem (seed k : ℕ) (a b : ℚ) (h : a < b) :
    a ≤ pyUniform seed k a b ∧ pyUniform seed k a b < b := by
  unfold pyUniform
  constructor
  · nlinarith [randomDouble_nonneg seed k, sub_pos.mpr h]
  · nlinarith [randomDouble_lt_one seed k, sub_pos.mpr h]

/-- The jitter factor lies in `[0.95, 1.05)`. -/
theorem randomFactor_mem (seed : ℕ) :
    (0.95 : ℚ) ≤ randomFactor seed ∧ randomFactor seed < 1.05 :=
  pyUniform_mem seed 0 0.95 1.05 (by norm_num)

/-! ## Facts about round-half-to-even -/

/-- The rounded value is at least the floor. -/
theorem floor_le_roundHalfEven (x : ℚ) : ⌊x⌋ ≤ roundHalfEven x := by
  simp only [roundHalfEven]
  split_ifs <;> omega

/-- The rounded value is at most the floor plus one. -/
theorem roundHalfEven_le_floor_add_one (x : ℚ) : roundHalfEven x ≤ ⌊x⌋ + 1 := by
  simp only [roundHalfEven]
  split_ifs <;> omega

/-- The rounded value is within one half of the argument (upper side). -/
theorem roundHalfEven_le (x : ℚ) : (roundHalfEven x : ℚ) ≤ x + 1 / 2 := by
  have hf := Int.floor_le x
  have hf2 := Int.lt_floor_add_one x
  simp only [roundHalfEven]
  split_ifs <;> push_cast <;> linarith

/-- The rounded value is within one half of the argument (lower side). -/
theorem le_roundHalfEven (x : ℚ) : x - 1 / 2 ≤ (roundHalfEven x : ℚ) := by
  have hf := Int.floor_le x
  have hf2 := Int.lt_floor_add_one x
  simp only [roundHalfEven]
  split_ifs <;> push_cast <;> linarith

/-- Round-half-to-even is monotone. -/
theorem roundHalfEven_mono {x y : ℚ} (h : x ≤ y) :
    roundHalfEven x ≤ roundHalfEven y := by
  rcases lt_or_le ⌊x⌋ ⌊y⌋ with hf | hf
  · calc roundHalfEven x ≤ ⌊x⌋ + 1 := roundHalfEven_le_floor_add_one x
      _ ≤ ⌊y⌋ := by omega
      _ ≤ roundHalfEven y := floor_le_roundHalfEven y
  · have hfx : ⌊x⌋ = ⌊y⌋ := le_antisymm (Int.floor_mono h) hf
    have h1 := Int.floor_le x
    have h2 := Int.lt_floor_add_one y
    simp only [roundHalfEven, hfx]
    split_ifs <;> first | omega | linarith

/-- Rounding an integer returns it. -/
theorem roundHalfEven_intCast (n : ℤ) : roundHalfEven (n : ℚ) = n := by
  simp only [roundHalfEven, Int.floor_intCast]
  norm_num

/-! ## Facts about Python `round(x, n)` -/

/-- Python `round(·, n)` is monotone. -/
theorem pyRound_mono (n : ℕ) {x y : ℚ} (h : x ≤ y) : pyRound x n ≤ pyRound y n := by
  unfold pyRound
  have hr : roundHalfEven (x * 10 ^ n) ≤ roundHalfEven (y * 10 ^ n) :=
    roundHalfEven_mono (by
      have hp : (0 : ℚ) < 10 ^ n := by positivity
      exact mul_le_mul_of_nonneg_right h hp.le)
  have hp : (0 : ℚ) < 10 ^ n := by positivity
  exact (div_le_div_right hp).mpr (by exact_mod_cast hr)

/-- Python `round(q, n)` of a rational that is an integer multiple of `10^(-n)`
returns it unchanged. -/
theorem pyRound_eq_self (n : ℕ) (z : ℤ) : pyRound ((z : ℚ) / 10 ^ n) n = (z : ℚ) / 10 ^ n := by
  unfold pyRound
  rw [div_mul_cancel₀, roundHalfEven_intCast]
  positivity

/-- Python `round(·, n)` moves its argument by at most half a unit in the last
place: `|round(x, n) - x| ≤ 1/(2·10^n)`. -/
theorem pyRound_abs_sub (x : ℚ) (n : ℕ) : |pyRound x n - x| ≤ 1 / (2 * 10 ^ n) := by
  have hp : (0 : ℚ) < 10 ^ n := by positivity
  have h1 := roundHalfEven_le (x * 10 ^ n)
  have h2 := le_roundHalfEven (x * 10 ^ n)
  have hy : pyRound x n - x = ((roundHalfEven (x * 10 ^ n) : ℚ) - x * 10 ^ n) / 10 ^ n := by
    field_simp [pyRound]
    ring
  have hhalf : |(roundHalfEven (x * 10 ^ n) : ℚ) - x * 10 ^ n| ≤ 1 / 2 :=
    abs_le.mpr ⟨by linarith, by linarith⟩
  calc |pyRound x n - x|
      = |(roundHalfEven (x * 10 ^ n) : ℚ) - x * 10 ^ n| / 10 ^ n := by
        rw [hy, abs_div, abs_of_pos hp]
    _ ≤ (1 / 2) / 10 ^ n := (div_le_div_right hp).mpr hhalf
    _ = 1 / (2 * 10 ^ n) := by ring

/-- Rounding a non-negative rational stays non-negative. -/
theorem pyRound_nonneg {x : ℚ} (n : ℕ) (h : 0 ≤ x) : 0 ≤ pyRound x n := by
  have h0 : pyRound 0 n = 0 := by
    simpa using pyRound_eq_self n 0
  calc (0 : ℚ) = pyRound 0 n := h0.symm
    _ ≤ pyRound x n := pyRound_mono n h

/-! ## The enumerated domains and weight-table bounds -/

/-- The defaulted vehicle-type weight is at least 0.2 for every string. -/
theorem vehicleWeight_ge (v : String) : (0.2 : ℚ) ≤ (vehicleTypeWeights v).getD 0.3 := by
  unfold vehicleTypeWeights
  split <;> norm_num [Option.getD]

/-- The defaulted weather weight is at least 0.1 for every string. -/
theorem weatherWeight_ge (w : String) : (0.1 : ℚ) ≤ (weatherWeights w).getD 0.3 := by
  unfold weatherWeights
  split <;> norm_num [Option.getD]

/-- The bucketed age lookup always succeeds, with weight at least 0.1. -/
theorem driverAgeWeight_some (age : ℕ) :
    ∃ w, driverAgeWeights (calculate_age_risk age) = some w ∧ (0.1 : ℚ) ≤ w := by
  unfold calculate_age_risk
  split_ifs <;> exact ⟨_, rfl, by norm_num⟩

/-- The bucketed experience lookup always succeeds, with weight at least 0.1. -/
theorem experienceWeight_some (e : ℕ) :
    ∃ w, experienceWeights (calculate_experience_risk e) = some w ∧ (0.1 : ℚ) ≤ w := by
  unfold calculate_experience_risk
  split_ifs <;> exact ⟨_, rfl, by norm_num⟩

theorem licenseValidWeight_some {s : String} (h : s ∈ ["yes", "no"]) :
    ∃ w, licenseValidWeights s = some w ∧ (0 : ℚ) ≤ w := by
  fin_cases h <;> exact ⟨_, rfl, by norm_num⟩

theorem seatbeltWeight_some {s : String} (h : s ∈ ["yes", "no"]) :
    ∃ w, seatbeltWeights s = some w ∧ (0 : ℚ) ≤ w := by
  fin_cases h <;> exact ⟨_, rfl, by norm_num⟩

theorem roadSurfaceWeight_some {s : String} (h : s ∈ ["Dry", "Wet", "Icy", "Muddy"]) :
    ∃ w, roadSurfaceWeights s = some w ∧ (0.1 : ℚ) ≤ w := by
  fin_cases h <;> exact ⟨_, rfl, by norm_num⟩

theorem visibilityWeight_some {s : String} (h : s ∈ ["high", "medium", "low"]) :
    ∃ w, visibilityWeights s = some w ∧ (0.1 : ℚ) ≤ w := by
  fin_cases h <;> exact ⟨_, rfl, by norm_num⟩

theorem lightConditionWeight_some {s : String}
    (h : s ∈ ["Daylight", "Night_with_lights", "Night_without_lights"]) :
    ∃ w, lightConditionWeights s = some w ∧ (0.1 : ℚ) ≤ w := by
  fin_cases h <;> exact ⟨_, rfl, by norm_num⟩

theorem roadTypeWeight_some {s : String} (h : s ∈ ["Highway", "City_Road", "Rural_Road"]) :
    ∃ w, roadTypeWeights s = some w ∧ (0.3 : ℚ) ≤ w := by
  fin_cases h <;> exact ⟨_, rfl, by norm_num⟩

theorem roadDesignWeight_some {s : String}
    (h : s ∈ ["Straight", "Curved", "Junction", "Roundabout"]) :
    ∃ w, roadDesignWeights s = some w ∧ (0.2 : ℚ) ≤ w := by
  fin_cases h <;> exact ⟨_, rfl, by norm_num⟩

theorem trafficVolumeWeight_some {s : String} (h : s ∈ ["Low", "Medium", "High"]) :
    ∃ w, trafficVolumeWeights s = some w ∧ (0.2 : ℚ) ≤ w := by
  fin_cases h <;> exact ⟨_, rfl, by norm_num⟩

theorem timeOfDayWeight_some {s : String}
    (h : s ∈ ["Morning", "Afternoon", "Evening", "Night"]) :
    ∃ w, timeOfDayWeights s = some w ∧ (0.2 : ℚ) ≤ w := by
  fin_cases h <;> exact ⟨_, rfl, by norm_num⟩

theorem areaTypeWeight_some {s : String} (h : s ∈ ["Urban", "Suburban", "Rural"]) :
    ∃ w, areaTypeWeights s = some w ∧ (0.3 : ℚ) ≤ w := by
  fin_cases h <;> exact ⟨_, rfl, by norm_num⟩

theorem overtakingWeight_some {s : String} (h : s ∈ ["yes", "no"]) :
    ∃ w, overtakingWeights s = some w ∧ (0 : ℚ) ≤ w := by
  fin_cases h <;> exact ⟨_, rfl, by norm_num⟩

theorem alcoholWeight_some {s : String} (h : s ∈ ["yes", "no"]) :
    ∃ w, alcoholWeights s = some w ∧ (0 : ℚ) ≤ w := by
  fin_cases h <;> exact ⟨_, rfl, by norm_num⟩

theorem phoneUsageWeight_some {s : String} (h : s ∈ ["yes", "no"]) :
    ∃ w, phoneUsageWeights s = some w ∧ (0 : ℚ) ≤ w := by
  fin_cases h <;> exact ⟨_, rfl, by norm_num⟩

/-- The day-of-week weight is at least 0.3. -/
theorem dayOfWeekWeight_ge (b : Bool) : (0.3 : ℚ) ≤ dayOfWeekWeight b := by
  cases b <;> norm_num [dayOfWeekWeight]

/-- The speed contribution is never negative. -/
theorem calculate_speed_risk_nonneg (cs sl : ℕ) : 0 ≤ calculate_speed_risk cs sl := by
  unfold calculate_speed_risk
  split_ifs
  · norm_num
  · exact le_min (by positivity) (by norm_num)

/-- The base location risk always lies in `[0.4, 0.7]`, for every location
string: every table entry does, and so do the keyword defaults. -/
theorem get_location_risk_mem (loc : String) :
    (0.4 : ℚ) ≤ get_location_risk loc ∧ get_location_risk loc ≤ 0.7 := by
  simp only [get_location_risk]
  cases hfind : location_risk_base.find? fun p => strContains loc.toLower p.1 with
  | none => split_ifs <;> norm_num
  | some p =>
    have hmem : p ∈ location_risk_base := List.mem_of_find?_eq_some hfind
    fin_cases hmem <;> norm_num

/-! ## Success and lower bound of the risk accumulation -/

theorem vehicleDriverRisk?_some (c : Conditions)
    (hl : c.license_valid ∈ ["yes", "no"]) (hs : c.seatbelt ∈ ["yes", "no"]) :
    ∃ q, vehicleDriverRisk? c = some q ∧ (0.4 : ℚ) ≤ q := by
  obtain ⟨wa, ha, hwa⟩ := driverAgeWeight_some c.driver_age
  obtain ⟨we, he, hwe⟩ := experienceWeight_some c.experience
  obtain ⟨wl, hlv, hwl⟩ := licenseValidWeight_some hl
  obtain ⟨ws, hsv, hws⟩ := seatbeltWeight_some hs
  refine ⟨(vehicleTypeWeights c.vehicle_type).getD 0.3 + wa + we + wl + ws, ?_, ?_⟩
  · unfold vehicleDriverRisk?
    rw [ha, he, hlv, hsv]
    rfl
  · have hv := vehicleWeight_ge c.vehicle_type
    linarith

theorem environmentalRisk?_some (c : Conditions)
    (h1 : c.road_surface ∈ ["Dry", "Wet", "Icy", "Muddy"])
    (h2 : c.visibility ∈ ["high", "medium", "low"])
    (h3 : c.light_condition ∈ ["Daylight", "Night_with_lights", "Night_without_lights"]) :
    ∃ q, environmentalRisk? c = some q ∧ (0.4 : ℚ) ≤ q := by
  obtain ⟨w1, e1, b1⟩ := roadSurfaceWeight_some h1
  obtain ⟨w2, e2, b2⟩ := visibilityWeight_some h2
  obtain ⟨w3, e3, b3⟩ := lightConditionWeight_some h3
  refine ⟨(weatherWeights c.weather).getD 0.3 + w1 + w2 + w3, ?_, ?_⟩
  · unfold environmentalRisk?
    rw [e1, e2, e3]
    rfl
  · have hw := weatherWeight_ge c.weather
    linarith

theorem roadTrafficRisk?_some (c : Conditions)
    (h1 : c.road_type ∈ ["Highway", "City_Road", "Rural_Road"])
    (h2 : c.road_design ∈ ["Straight", "Curved", "Junction", "Roundabout"])
    (h3 : c.traffic_volume ∈ ["Low", "Medium", "High"]) :
    ∃ q, roadTrafficRisk? c = some q ∧ (0.7 : ℚ) ≤ q := by
  obtain ⟨w1, e1, b1⟩ := roadTypeWeight_some h1
  obtain ⟨w2, e2, b2⟩ := roadDesignWeight_some h2
  obtain ⟨w3, e3, b3⟩ := trafficVolumeWeight_some h3
  refine ⟨w1 + w2 + w3 + calculate_speed_risk c.current_speed c.speed_limit, ?_, ?_⟩
  · unfold roadTrafficRisk?
    rw [e1, e2, e3]
    rfl
  · have hs := calculate_speed_risk_nonneg c.current_speed c.speed_limit
    linarith

theorem timeAreaRisk?_some (c : Conditions)
    (h1 : c.time_of_day ∈ ["Morning", "Afternoon", "Evening", "Night"])
    (h2 : c.area_type ∈ ["Urban", "Suburban", "Rural"]) :
    ∃ q, timeAreaRisk? c = some q ∧ (0.8 : ℚ) ≤ q := by
  obtain ⟨w1, e1, b1⟩ := timeOfDayWeight_some h1
  obtain ⟨w2, e2, b2⟩ := areaTypeWeight_some h2
  refine ⟨w1 + dayOfWeekWeight c.is_weekend + w2, ?_, ?_⟩
  · unfold timeAreaRisk?
    rw [e1, e2]
    rfl
  · have hd := dayOfWeekWeight_ge c.is_weekend
    linarith

theorem additionalRisk?_some (c : Conditions)
    (h1 : c.overtaking ∈ ["yes", "no"]) (h2 : c.alcohol ∈ ["yes", "no"])
    (h3 : c.phone_usage ∈ ["yes", "no"]) :
    ∃ q, additionalRisk? c = some q ∧ (0 : ℚ) ≤ q := by
  obtain ⟨w1, e1, b1⟩ := overtakingWeight_some h1
  obtain ⟨w2, e2, b2⟩ := alcoholWeight_some h2
  obtain ⟨w3, e3, b3⟩ := phoneUsageWeight_some h3
  refine ⟨w1 + w2 + w3 + (c.accident_history : ℚ) * 0.1, ?_, ?_⟩
  · unfold additionalRisk?
    rw [e1, e2, e3]
    rfl
  · have : (0 : ℚ) ≤ (c.accident_history : ℚ) * 0.1 := by positivity
    linarith

/-- A valid conditions dictionary always yields a total risk, and the total
is at least 2.7 (the sum of the per-section minima plus the base minimum). -/
theorem totalRisk?_some (loc : String) (c : Conditions) (hv : validConditions c) :
    ∃ t, totalRisk? loc c = some t ∧ (2.7 : ℚ) ≤ t := by
  obtain ⟨hl, hs, hsurf, hvis, hlight, hrt, hrd, htv, htod, har, hov, hal, hph⟩ := hv
  obtain ⟨q1, e1, b1⟩ := vehicleDriverRisk?_some c hl hs
  obtain ⟨q2, e2, b2⟩ := environmentalRisk?_some c hsurf hvis hlight
  obtain ⟨q3, e3, b3⟩ := roadTrafficRisk?_some c hrt hrd htv
  obtain ⟨q4, e4, b4⟩ := timeAreaRisk?_some c htod har
  obtain ⟨q5, e5, b5⟩ := additionalRisk?_some c hov hal hph
  refine ⟨get_location_risk loc + q1 + q2 + q3 + q4 + q5, ?_, ?_⟩
  · unfold totalRisk?
    rw [e1, e2, e3, e4, e5]
    rfl
  · have hloc := (get_location_risk_mem loc).1
    linarith

/-! ## Unfolding lemmas for `predict_accident_risk` -/

/-- When the accumulation succeeds, the result is the `success: True`
dictionary. -/
theorem predict_eq_ok (loc : String) (c : Conditions) (t : ℚ)
    (h : totalRisk? loc c = some t) :
    predict_accident_risk loc c = PredictResult.ok (okResultOf loc c t) := by
  unfold predict_accident_risk
  rw [h]

/-- When the accumulation raises, the result is the `success: False`
dictionary with the fixed error message. -/
theorem predict_eq_failure (loc : String) (c : Conditions)
    (h : totalRisk? loc c = none) :
    predict_accident_risk loc c = PredictResult.failure "Prediction calculation failed" loc := by
  unfold predict_accident_risk
  rw [h]

theorem okResultOf_risk_score (loc : String) (c : Conditions) (t : ℚ) :
    (okResultOf loc c t).risk_score = pyRound (finalRisk (generate_seed loc c) t * 100) 1 := rfl

theorem okResultOf_severity_code (loc : String) (c : Conditions) (t : ℚ) :
    (okResultOf loc c t).severity_code = (severityInfo (finalRisk (generate_seed loc c) t)).2.1 := rfl

theorem okResultOf_predicted_severity (loc : String) (c : Conditions) (t : ℚ) :
    (okResultOf loc c t).predicted_severity =
      (severityInfo (finalRisk (generate_seed loc c) t)).2.2.2 := rfl

theorem okResultOf_color (loc : String) (c : Conditions) (t : ℚ) :
    (okResultOf loc c t).color = (severityInfo (finalRisk (generate_seed loc c) t)).2.2.1 := rfl

theorem okResultOf_probabilities (loc : String) (c : Conditions) (t : ℚ) :
    (okResultOf loc c t).probabilities =
      { low := pyRound (normProbs (rawProbs (generate_seed loc c)
          (finalRisk (generate_seed loc c) t)
          (severityInfo (finalRisk (generate_seed loc c) t)).2.1)).1 3
        medium := pyRound (normProbs (rawProbs (generate_seed loc c)
          (finalRisk (generate_seed loc c) t)
          (severityInfo (finalRisk (generate_seed loc c) t)).2.1)).2.1 3
        high := pyRound (normProbs (rawProbs (generate_seed loc c)
          (finalRisk (generate_seed loc c) t)
          (severityInfo (finalRisk (generate_seed loc c) t)).2.1)).2.2 3 } := rfl

theorem okResultOf_recommendations (loc : String) (c : Conditions) (t : ℚ) :
    (okResultOf loc c t).recommendations =
      generate_recommendations c (severityInfo (finalRisk (generate_seed loc c) t)).2.1 := rfl

theorem okResultOf_risk_factors (loc : String) (c : Conditions) (t : ℚ) :
    (okResultOf loc c t).risk_factors = identify_risk_factors c := rfl

/-! ## Bounds on the normalized and final risk -/

/-- The clamp of line 224 keeps the normalized risk in `[0.05, 0.95]`. -/
theorem normalizedRisk_mem (t : ℚ) :
    (0.05 : ℚ) ≤ normalizedRisk t ∧ normalizedRisk t ≤ 0.95 := by
  unfold normalizedRisk
  constructor
  · exact le_min (le_max_right _ _) (by norm_num)
  · exact min_le_right _ _

/-- A total of at least 2.7 normalizes to at least 0.3375. -/
theorem normalizedRisk_ge {t : ℚ} (h : (2.7 : ℚ) ≤ t) :
    (0.3375 : ℚ) ≤ normalizedRisk t := by
  unfold normalizedRisk
  refine le_min (le_trans ?_ (le_max_left _ _)) (by norm_num)
  linarith

/-- The normalization is monotone in the accumulated total. -/
theorem normalizedRisk_mono {t1 t2 : ℚ} (h : t1 ≤ t2) :
    normalizedRisk t1 ≤ normalizedRisk t2 := by
  unfold normalizedRisk
  exact min_le_min (max_le_max (by linarith) le_rfl) le_rfl

/-- The final (post-jitter) risk never exceeds 0.95. -/
theorem finalRisk_le (seed : ℕ) (t : ℚ) : finalRisk seed t ≤ 0.95 :=
  min_le_right _ _

/-- The final (post-jitter) risk is non-negative. -/
theorem finalRisk_nonneg (seed : ℕ) (t : ℚ) : 0 ≤ finalRisk seed t := by
  unfold finalRisk
  have h1 := (normalizedRisk_mem t).1
  have h2 := (randomFactor_mem seed).1
  exact le_min (by nlinarith) (by norm_num)

/-- A total of at least 2.7 gives a final risk of at least 0.320625
(`0.3375 × 0.95`). -/
theorem finalRisk_ge (seed : ℕ) {t : ℚ} (h : (2.7 : ℚ) ≤ t) :
    (0.320625 : ℚ) ≤ finalRisk seed t := by
  unfold finalRisk
  have h1 := normalizedRisk_ge h
  have h2 := (randomFactor_mem seed).1
  have h3 := (normalizedRisk_mem t).2
  exact le_min (by nlinarith) (by norm_num)

/-- With the seed fixed, the final risk is monotone in the total. -/
theorem finalRisk_mono (seed : ℕ) {t1 t2 : ℚ} (h : t1 ≤ t2) :
    finalRisk seed t1 ≤ finalRisk seed t2 := by
  unfold finalRisk
  have hm := normalizedRisk_mono h
  have hf : (0 : ℚ) ≤ randomFactor seed := le_trans (by norm_num) (randomFactor_mem seed).1
  exact min_le_min (mul_le_mul_of_nonneg_right hm hf) le_rfl


/-! ## Staged kernel evaluations of the hash and the seeded generator for
the Morning counterexample input (seed 121957498) -/





theorem morningBlock_eq : md5Pad (utf8Bytes (seedString "Mumbai" morningConditions)) = morningBlock := by
  decide

theorem morningWords_eq : md5Words morningBlock = morningWords := by decide

set_option maxRecDepth 40000 in
theorem morningMd5RoundsA :
    (md5Round morningWords)^[32] ((1732584193, 4023233417, 2562383102, 271733878), 0) =
      ((3639060886, 2361291573, 195068091, 1550732527), 32) := by decide

set_option maxRecDepth 40000 in
theorem morningMd5RoundsB :
    (md5Round morningWords)^[32] ((3639060886, 2361291573, 195068091, 1550732527), 32) = ((329720070, 950532087, 424946360, 3703936530), 64) := by decide

/-- The seed of the Morning counterexample input:
`int(md5("Mumbai_Clear_Morning_City_Road").hexdigest()[:8], 16)`. -/
theorem morningSeed : generate_seed "Mumbai" morningConditions = 121957498 := by
  have hchunks : chunks64 morningBlock = [morningBlock] := by decide
  have hchunk : md5Chunk (1732584193, 4023233417, 2562383102, 271733878) morningBlock =
      (2062304263, 678798208, 2987329462, 3975670408) := by
    simp only [md5Chunk, morningWords_eq]
    rw [show (64 : ℕ) = 32 + 32 from rfl, Function.iterate_add_apply,
      morningMd5RoundsA, morningMd5RoundsB]
    decide
  have hstate : md5State (utf8Bytes (seedString "Mumbai" morningConditions)) = (2062304263, 678798208, 2987329462, 3975670408) := by
    unfold md5State
    rw [morningBlock_eq, hchunks]
    simp only [List.foldl]
    exact hchunk
  unfold generate_seed md5Head8
  rw [hstate]
  decide






set_option maxRecDepth 40000 in
theorem mtStage1 : mtInitStep^[623] (m32 19650218, 1) = (mtStateInit, 624) := by decide

set_option maxRecDepth 40000 in
theorem mtStage2 : (mtMix1Step 121957498)^[624] (mtStateInit, 1) = (mtStateMixA, 2) := by decide

set_option maxRecDepth 40000 in
theorem mtStage3 : mtMix2Step^[623] (mtStateMixA, 2) = (mtStateMixB, 2) := by decide

theorem mtStage3b : setw32 mtStateMixB 0 2147483648 = mtStateSeeded := by decide

set_option maxRecDepth 40000 in
theorem mtStage4 : mtTwistStep^[624] (mtStateSeeded, 0) = (mtStateTwisted, 624) := by decide

theorem mtTwistByArray121957498 : mtTwist (mtInitByArray 121957498) = mtStateTwisted := by
  have h0 : mtInitGenrand 19650218 = mtStateInit := by
    unfold mtInitGenrand
    rw [mtStage1]
  unfold mtTwist mtInitByArray
  rw [h0, mtStage2, mtStage3]
  dsimp only
  rw [mtStage3b, mtStage4]

theorem mtOutput121957498 (k : ℕ) :
    mtOutput 121957498 k = mtTemper (w32 mtStateTwisted k) := by
  unfold mtOutput
  rw [mtTwistByArray121957498]


theorem mtOut121957498x0 : mtTemper (w32 mtStateTwisted 0) = 3548572993 := by decide

theorem mtOut121957498x1 : mtTemper (w32 mtStateTwisted 1) = 218704076 := by decide

theorem mtOut121957498x2 : mtTemper (w32 mtStateTwisted 2) = 3651678790 := by decide

theorem mtOut121957498x3 : mtTemper (w32 mtStateTwisted 3) = 4168179730 := by decide

theorem mtOut121957498x4 : mtTemper (w32 mtStateTwisted 4) = 510719298 := by decide

theorem mtOut121957498x5 : mtTemper (w32 mtStateTwisted 5) = 2630467302 := by decide

theorem randomDouble121957498x0 :
    randomDouble 121957498 0 = 7441896950736035 / 9007199254740992 := by
  unfold randomDouble
  rw [mtOutput121957498, mtOutput121957498]
  norm_num [Nat.shiftRight_eq_div_pow, mtOut121957498x0, mtOut121957498x1]

theorem randomDouble121957498x1 :
    randomDouble 121957498 1 = 7658125530350976 / 9007199254740992 := by
  unfold randomDouble
  rw [mtOutput121957498, mtOutput121957498]
  norm_num [Nat.shiftRight_eq_div_pow, mtOut121957498x2, mtOut121957498x3]

theorem randomDouble121957498x2 :
    randomDouble 121957498 2 = 1071056034146043 / 9007199254740992 := by
  unfold randomDouble
  rw [mtOutput121957498, mtOutput121957498]
  norm_num [Nat.shiftRight_eq_div_pow, mtOut121957498x4, mtOut121957498x5]
/-- C2: for every location string and every conditions dictionary whose
categorical fields lie in their enumerated domains (numeric fields being
non-negative integers by type), the call succeeds and the returned
`risk_score` lies in the closed interval `[5.0, 95.0]`. -/
theorem risk_score_bounds (loc : String) (c : Conditions) (hv : validConditions c) :
    ∃ r, predict_accident_risk loc c = PredictResult.ok r ∧
      (5 : ℚ) ≤ r.risk_score ∧ r.risk_score ≤ 95 := by
  obtain ⟨t, ht, hb⟩ := totalRisk?_some loc c hv
  refine ⟨okResultOf loc c t, predict_eq_ok loc c t ht, ?_, ?_⟩
  · rw [okResultOf_risk_score]
    have h1 : (0.320625 : ℚ) ≤ finalRisk (generate_seed loc c) t := finalRisk_ge _ hb
    have habs := pyRound_abs_sub (finalRisk (generate_seed loc c) t * 100) 1
    rw [abs_le] at habs
    have h2 := habs.1
    norm_num at h1 h2 ⊢
    linarith
  · rw [okResultOf_risk_score]
    have h2 : finalRisk (generate_seed loc c) t ≤ 0.95 := finalRisk_le _ _
    have hm : pyRound (finalRisk (generate_seed loc c) t * 100) 1 ≤ pyRound 95 1 :=
      pyRound_mono 1 (by linarith)
    have h95 : pyRound (95 : ℚ) 1 = 95 := by
      have h := pyRound_eq_self 1 950
      norm_num at h
      convert h using 2
    rw [h95] at hm
    exact hm

theorem risk_score_bounds_witness :
    validConditions defaultConditions ∧
    ∃ r, predict_accident_risk "Mumbai" defaultConditions = PredictResult.ok r ∧
      (5 : ℚ) ≤ r.risk_score ∧ r.risk_score ≤ 95 :=
  ⟨by decide, risk_score_bounds "Mumbai" defaultConditions (by decide)⟩

/-- C4: the severity fields and the color of a successful result are the
pure threshold function of the post-jitter final risk: below 0.3 the Low
bucket with color #28a745, below 0.6 the Medium bucket with #ffc107,
otherwise the High bucket with #dc3545. -/
theorem severity_color_thresholds (loc : String) (c : Conditions) (t : ℚ)
    (h : totalRisk? loc c = some t) :
    ∃ r, predict_accident_risk loc c = PredictResult.ok r ∧
      r.severity_code = (if finalRisk (generate_seed loc c) t < 0.3 then 0
        else if finalRisk (generate_seed loc c) t < 0.6 then 1 else 2) ∧
      r.predicted_severity = (if finalRisk (generate_seed loc c) t < 0.3 then "Low Risk"
        else if finalRisk (generate_seed loc c) t < 0.6 then "Medium Risk" else "High Risk") ∧
      r.color = (if finalRisk (generate_seed loc c) t < 0.3 then "#28a745"
        else if finalRisk (generate_seed loc c) t < 0.6 then "#ffc107" else "#dc3545") := by
  refine ⟨okResultOf loc c t, predict_eq_ok loc c t h, ?_, ?_, ?_⟩ <;>
    simp only [okResultOf_severity_code, okResultOf_predicted_severity, okResultOf_color,
      severityInfo] <;>
    split_ifs <;> rfl

theorem severity_color_thresholds_witness :
    totalRisk? "Mumbai" defaultConditions = some 3.6 ∧
    (∃ r, predict_accident_risk "Mumbai" defaultConditions = PredictResult.ok r ∧
      r.severity_code = (if finalRisk (generate_seed "Mumbai" defaultConditions) 3.6 < 0.3 then 0
        else if finalRisk (generate_seed "Mumbai" defaultConditions) 3.6 < 0.6 then 1 else 2) ∧
      r.predicted_severity =
        (if finalRisk (generate_seed "Mumbai" defaultConditions) 3.6 < 0.3 then "Low Risk"
         else if finalRisk (generate_seed "Mumbai" defaultConditions) 3.6 < 0.6 then "Medium Risk"
         else "High Risk") ∧
      r.color = (if finalRisk (generate_seed "Mumbai" defaultConditions) 3.6 < 0.3 then "#28a745"
        else if finalRisk (generate_seed "Mumbai" defaultConditions) 3.6 < 0.6 then "#ffc107"
        else "#dc3545")) :=
  ⟨by with_unfolding_all decide,
   severity_color_thresholds "Mumbai" defaultConditions 3.6 (by with_unfolding_all decide)⟩

/-- C6: the speed term is `min((current_speed - speed_limit) * 0.01, 1.0)`
when over the limit and 0 otherwise; at the limit it contributes exactly 0,
at limit + 150 exactly 1; and the speed term is exactly the difference the
speed field makes to the accumulated total risk. -/
theorem speed_risk_contribution :
    (∀ cs sl : ℕ, cs ≤ sl → calculate_speed_risk cs sl = 0) ∧
    (∀ cs sl : ℕ, sl < cs →
      calculate_speed_risk cs sl = min (((cs - sl : ℕ) : ℚ) * 0.01) 1) ∧
    (∀ sl : ℕ, calculate_speed_risk sl sl = 0) ∧
    (∀ sl : ℕ, calculate_speed_risk (sl + 150) sl = 1) ∧
    (∀ (loc : String) (c : Conditions) (t0 : ℚ),
      totalRisk? loc { c with current_speed := c.speed_limit } = some t0 →
      totalRisk? loc c = some (t0 + calculate_speed_risk c.current_speed c.speed_limit)) := by
  refine ⟨?_, ?_, ?_, ?_, ?_⟩
  · intro cs sl h
    unfold calculate_speed_risk
    rw [if_pos h]
    norm_num
  · intro cs sl h
    unfold calculate_speed_risk
    rw [if_neg (by omega)]
    norm_num
  · intro sl
    unfold calculate_speed_risk
    rw [if_pos le_rfl]
    norm_num
  · intro sl
    unfold calculate_speed_risk
    rw [if_neg (by omega)]
    rw [show sl + 150 - sl = 150 by omega]
    norm_num
  · intro loc c t0 h
    have e3 : ∀ q, roadTrafficRisk? { c with current_speed := c.speed_limit } = some q →
        roadTrafficRisk? c = some (q + calculate_speed_risk c.current_speed c.speed_limit) := by
      intro q hq
      unfold roadTrafficRisk? at hq ⊢
      dsimp only at hq
      simp only [Option.bind_eq_bind', Option.pure_def, Option.bind_eq_some, Option.some.injEq] at hq ⊢
      obtain ⟨w1, hw1, w2, hw2, w3, hw3, heq⟩ := hq
      refine ⟨w1, hw1, w2, hw2, w3, hw3, ?_⟩
      have hz : calculate_speed_risk c.speed_limit c.speed_limit = 0 := by
        unfold calculate_speed_risk
        rw [if_pos le_rfl]
        norm_num
      rw [hz] at heq
      rw [← heq]
      ring
    unfold totalRisk? at h ⊢
    simp only [Option.bind_eq_bind', Option.pure_def, Option.bind_eq_some, Option.some.injEq] at h ⊢
    obtain ⟨q1, hq1, q2, hq2, q3, hq3, q4, hq4, q5, hq5, heq⟩ := h
    have e1 : vehicleDriverRisk? { c with current_speed := c.speed_limit } =
        vehicleDriverRisk? c := rfl
    have e2 : environmentalRisk? { c with current_speed := c.speed_limit } =
        environmentalRisk? c := rfl
    have e4 : timeAreaRisk? { c with current_speed := c.speed_limit } =
        timeAreaRisk? c := rfl
    have e5 : additionalRisk? { c with current_speed := c.speed_limit } =
        additionalRisk? c := rfl
    rw [e1] at hq1
    rw [e2] at hq2
    rw [e4] at hq4
    rw [e5] at hq5
    exact ⟨q1, hq1, q2, hq2, _, e3 q3 hq3, q4, hq4, q5, hq5, by rw [← heq]; ring⟩

theorem speed_risk_contribution_witness :
    calculate_speed_risk 50 50 = 0 ∧ calculate_speed_risk (50 + 150) 50 = 1 ∧
    totalRisk? "Mumbai" { defaultConditions with current_speed := 60 } =
      some (3.6 + calculate_speed_risk
        ({ defaultConditions with current_speed := 60 } : Conditions).current_speed
        ({ defaultConditions with current_speed := 60 } : Conditions).speed_limit) := by
  refine ⟨speed_risk_contribution.2.2.1 50, speed_risk_contribution.2.2.2.1 50, ?_⟩
  exact speed_risk_contribution.2.2.2.2 "Mumbai"
    { defaultConditions with current_speed := 60 } 3.6 (by with_unfolding_all decide)
/-- C1 (amended): the pseudo-random seed — and with it every seeded uniform
draw — depends only on `(location, weather, time_of_day, road_type)`; the
full outputs may still differ when other condition fields differ, since the
other fields enter the accumulated total. -/
theorem seed_scope_insensitivity (loc1 loc2 : String) (c1 c2 : Conditions)
    (hloc : loc1 = loc2) (hw : c1.weather = c2.weather)
    (ht : c1.time_of_day = c2.time_of_day) (hr : c1.road_type = c2.road_type) :
    generate_seed loc1 c1 = generate_seed loc2 c2 ∧
    randomFactor (generate_seed loc1 c1) = randomFactor (generate_seed loc2 c2) ∧
    (∀ (k : ℕ) (a b : ℚ),
      pyUniform (generate_seed loc1 c1) k a b = pyUniform (generate_seed loc2 c2) k a b) := by
  have hs : seedString loc1 c1 = seedString loc2 c2 := by
    unfold seedString
    rw [hloc, hw, ht, hr]
  have hseed : generate_seed loc1 c1 = generate_seed loc2 c2 := by
    unfold generate_seed
    rw [hs]
  exact ⟨hseed, by rw [hseed], fun k a b => by rw [hseed]⟩

theorem seed_scope_insensitivity_witness :
    generate_seed "Mumbai" defaultConditions = generate_seed "Mumbai" alcoholConditions ∧
    randomFactor (generate_seed "Mumbai" defaultConditions) =
      randomFactor (generate_seed "Mumbai" alcoholConditions) ∧
    (∀ (k : ℕ) (a b : ℚ), pyUniform (generate_seed "Mumbai" defaultConditions) k a b =
      pyUniform (generate_seed "Mumbai" alcoholConditions) k a b) :=
  seed_scope_insensitivity "Mumbai" "Mumbai" defaultConditions alcoholConditions
    rfl rfl rfl rfl

/-- C1 (counterexample): two inputs agreeing on location, weather,
time_of_day and road_type but differing in `alcohol` produce different
outputs — the risk scores differ by over 11 points, for every possible
jitter draw. -/
theorem seed_scope_determinism_counterexample :
    defaultConditions.weather = alcoholConditions.weather ∧
    defaultConditions.time_of_day = alcoholConditions.time_of_day ∧
    defaultConditions.road_type = alcoholConditions.road_type ∧
    predict_accident_risk "Mumbai" defaultConditions ≠
      predict_accident_risk "Mumbai" alcoholConditions := by
  refine ⟨rfl, rfl, rfl, ?_⟩
  have ht1 : totalRisk? "Mumbai" defaultConditions = some 3.6 := by
    with_unfolding_all decide
  have ht2 : totalRisk? "Mumbai" alcoholConditions = some 4.6 := by
    with_unfolding_all decide
  have hstr : seedString "Mumbai" alcoholConditions =
      seedString "Mumbai" defaultConditions := rfl
  have hseed : generate_seed "Mumbai" alcoholConditions =
      generate_seed "Mumbai" defaultConditions := by
    unfold generate_seed
    rw [hstr]
  intro heq
  have hscore : riskScoreOf (predict_accident_risk "Mumbai" defaultConditions) =
      riskScoreOf (predict_accident_risk "Mumbai" alcoholConditions) := by rw [heq]
  rw [predict_eq_ok _ _ _ ht1, predict_eq_ok _ _ _ ht2] at hscore
  simp only [riskScoreOf] at hscore
  rw [okResultOf_risk_score, okResultOf_risk_score, hseed] at hscore
  set s := generate_seed "Mumbai" defaultConditions with hs
  set j := randomFactor s with hj
  have hjm := randomFactor_mem s
  rw [← hj] at hjm
  have hn1 : normalizedRisk 3.6 = 0.45 := by
    unfold normalizedRisk
    rw [show (3.6 : ℚ) / 8 = 0.45 by norm_num, max_eq_left (by norm_num),
      min_eq_left (by norm_num)]
  have hn2 : normalizedRisk 4.6 = 0.575 := by
    unfold normalizedRisk
    rw [show (4.6 : ℚ) / 8 = 0.575 by norm_num, max_eq_left (by norm_num),
      min_eq_left (by norm_num)]
  have hf1 : finalRisk s 3.6 = 0.45 * j := by
    unfold finalRisk
    rw [hn1, ← hj]
    exact min_eq_left (by nlinarith [hjm.2])
  have hf2 : finalRisk s 4.6 = 0.575 * j := by
    unfold finalRisk
    rw [hn2, ← hj]
    exact min_eq_left (by nlinarith [hjm.2])
  rw [hf1, hf2] at hscore
  have ha := pyRound_abs_sub (0.45 * j * 100) 1
  have hb := pyRound_abs_sub (0.575 * j * 100) 1
  rw [abs_le] at ha hb
  norm_num at ha hb
  have hlt : pyRound (0.45 * j * 100) 1 < pyRound (0.575 * j * 100) 1 := by
    linarith [hjm.1, hjm.2, ha.1, ha.2, hb.1, hb.2]
  exact absurd hscore (ne_of_lt hlt)

/-- C7: the recommendations of a successful result are the first at most 6
matches of the fixed ordered checklist, in checklist order, and so never
number more than 6. -/
theorem recommendations_checklist_take (loc : String) (c : Conditions) (t : ℚ)
    (h : totalRisk? loc c = some t) :
    ∃ r, predict_accident_risk loc c = PredictResult.ok r ∧
      r.recommendations.length ≤ 6 ∧
      r.recommendations = (recommendationChecklist c
        (severityInfo (finalRisk (generate_seed loc c) t)).2.1).take 6 := by
  refine ⟨okResultOf loc c t, predict_eq_ok loc c t h, ?_, ?_⟩
  · rw [okResultOf_recommendations]
    unfold generate_recommendations
    rw [List.length_take]
    exact min_le_left _ _
  · rw [okResultOf_recommendations]
    rfl

theorem recommendations_checklist_take_witness :
    totalRisk? "Mumbai" defaultConditions = some 3.6 ∧
    (∃ r, predict_accident_risk "Mumbai" defaultConditions = PredictResult.ok r ∧
      r.recommendations.length ≤ 6 ∧
      r.recommendations = (recommendationChecklist defaultConditions
        (severityInfo (finalRisk (generate_seed "Mumbai" defaultConditions) 3.6)).2.1).take 6) :=
  ⟨by with_unfolding_all decide,
   recommendations_checklist_take "Mumbai" defaultConditions 3.6 (by with_unfolding_all decide)⟩
/-- C8: the risk-factor checklist never reads the alcohol field — changing
`alcohol` never changes `risk_factors`, and the literal string "Alcohol"
never occurs among them — while the recommendation checklist does react to
`alcohol = yes`: with all other fields at the neutral defaults the alcohol
warning appears in the returned recommendations (for every severity code,
and in particular in the actual prediction). -/
theorem alcohol_asymmetry :
    (∀ (c : Conditions) (x : String),
      identify_risk_factors { c with alcohol := x } = identify_risk_factors c) ∧
    (∀ c : Conditions, "Alcohol" ∉ identify_risk_factors c) ∧
    (∀ code : ℕ, "🚫 Never drive under influence of alcohol" ∈
      generate_recommendations alcoholConditions code) ∧
    (∃ r, predict_accident_risk "Mumbai" alcoholConditions = PredictResult.ok r ∧
      "🚫 Never drive under influence of alcohol" ∈ r.recommendations) := by
  have hrec : ∀ code : ℕ, "🚫 Never drive under influence of alcohol" ∈
      generate_recommendations alcoholConditions code := by
    intro code
    unfold generate_recommendations recommendationChecklist
    rw [if_neg (by decide : ¬(alcoholConditions.weather ∈ ["Rainy", "Foggy", "Snowy", "Stormy"])),
      if_neg (by decide : ¬(alcoholConditions.current_speed > alcoholConditions.speed_limit)),
      if_neg (by decide : ¬(strContains alcoholConditions.light_condition "Night" = true)),
      if_neg (by decide : ¬(alcoholConditions.vehicle_type = "Bike")),
      if_neg (by decide : ¬(alcoholConditions.seatbelt = "no")),
      if_pos (by decide : alcoholConditions.alcohol = "yes"),
      if_neg (by decide : ¬(alcoholConditions.phone_usage = "yes"))]
    by_cases h2 : code ≥ 2
    · rw [if_pos h2]
      simp
    · by_cases h1 : code = 1
      · rw [if_neg h2, if_pos h1]
        simp
      · rw [if_neg h2, if_neg h1]
        simp
  have hfac : ∀ c : Conditions, "Alcohol" ∉ identify_risk_factors c := by
    intro c
    have hW : "Alcohol" ∉ (if c.weather ≠ "Clear" then ["Weather: " ++ c.weather] else []) := by
      split_ifs with hw
      · simp only [List.mem_singleton]
        intro h
        have hlen := congrArg String.length h
        rw [String.length_append] at hlen
        have l1 : "Alcohol".length = 7 := rfl
        have l2 : "Weather: ".length = 9 := rfl
        omega
      · simp
    have hS : "Alcohol" ∉
        (if c.road_surface ≠ "Dry" then ["Road Surface: " ++ c.road_surface] else []) := by
      split_ifs with hw
      · simp only [List.mem_singleton]
        intro h
        have hlen := congrArg String.length h
        rw [String.length_append] at hlen
        have l1 : "Alcohol".length = 7 := rfl
        have l2 : "Road Surface: ".length = 14 := rfl
        omega
      · simp
    have hV : "Alcohol" ∉ (if c.visibility ≠ "high" then ["Poor Visibility"] else []) := by
      split_ifs <;> decide
    have hN : "Alcohol" ∉
        (if strContains c.light_condition "Night" = true then ["Night Driving"] else []) := by
      split_ifs <;> decide
    have hT : "Alcohol" ∉ (if c.traffic_volume = "High" then ["Heavy Traffic"] else []) := by
      split_ifs <;> decide
    have hSp : "Alcohol" ∉
        (if c.current_speed > c.speed_limit then ["Speeding"] else []) := by
      split_ifs <;> decide
    have hD : "Alcohol" ∉ (if c.road_design ∈ ["Junction", "Curved"] then
        ["Road Design: " ++ c.road_design] else []) := by
      split_ifs with hw
      · simp only [List.mem_singleton]
        intro h
        have hlen := congrArg String.length h
        rw [String.length_append] at hlen
        have l1 : "Alcohol".length = 7 := rfl
        have l2 : "Road Design: ".length = 13 := rfl
        omega
      · simp
    have hY : "Alcohol" ∉ (if c.driver_age < 25 then ["Young Driver"] else []) := by
      split_ifs <;> decide
    have hE : "Alcohol" ∉ (if c.experience < 2 then ["Inexperienced Driver"] else []) := by
      split_ifs <;> decide
    unfold identify_risk_factors
    exact List.not_mem_append (List.not_mem_append (List.not_mem_append
      (List.not_mem_append (List.not_mem_append (List.not_mem_append
        (List.not_mem_append (List.not_mem_append hW hS) hV) hN) hT) hSp) hD) hY) hE
  refine ⟨fun c x => rfl, hfac, hrec, ?_⟩
  have ht : totalRisk? "Mumbai" alcoholConditions = some 4.6 := by
    with_unfolding_all decide
  refine ⟨okResultOf "Mumbai" alcoholConditions 4.6,
    predict_eq_ok "Mumbai" alcoholConditions 4.6 ht, ?_⟩
  rw [okResultOf_recommendations]
  exact hrec _
/-! ## Strict lookups fail exactly outside their domains -/

theorem licenseValidWeights_eq_none {s : String} (h : s ∉ ["yes", "no"]) :
    licenseValidWeights s = none := by
  unfold licenseValidWeights
  split <;> simp_all

theorem seatbeltWeights_eq_none {s : String} (h : s ∉ ["yes", "no"]) :
    seatbeltWeights s = none := by
  unfold seatbeltWeights
  split <;> simp_all

theorem roadSurfaceWeights_eq_none {s : String} (h : s ∉ ["Dry", "Wet", "Icy", "Muddy"]) :
    roadSurfaceWeights s = none := by
  unfold roadSurfaceWeights
  split <;> simp_all

theorem visibilityWeights_eq_none {s : String} (h : s ∉ ["high", "medium", "low"]) :
    visibilityWeights s = none := by
  unfold visibilityWeights
  split <;> simp_all

theorem lightConditionWeights_eq_none {s : String}
    (h : s ∉ ["Daylight", "Night_with_lights", "Night_without_lights"]) :
    lightConditionWeights s = none := by
  unfold lightConditionWeights
  split <;> simp_all

theorem roadTypeWeights_eq_none {s : String} (h : s ∉ ["Highway", "City_Road", "Rural_Road"]) :
    roadTypeWeights s = none := by
  unfold roadTypeWeights
  split <;> simp_all

theorem roadDesignWeights_eq_none {s : String}
    (h : s ∉ ["Straight", "Curved", "Junction", "Roundabout"]) :
    roadDesignWeights s = none := by
  unfold roadDesignWeights
  split <;> simp_all

theorem trafficVolumeWeights_eq_none {s : String} (h : s ∉ ["Low", "Medium", "High"]) :
    trafficVolumeWeights s = none := by
  unfold trafficVolumeWeights
  split <;> simp_all

theorem timeOfDayWeights_eq_none {s : String}
    (h : s ∉ ["Morning", "Afternoon", "Evening", "Night"]) :
    timeOfDayWeights s = none := by
  unfold timeOfDayWeights
  split <;> simp_all

theorem areaTypeWeights_eq_none {s : String} (h : s ∉ ["Urban", "Suburban", "Rural"]) :
    areaTypeWeights s = none := by
  unfold areaTypeWeights
  split <;> simp_all

theorem overtakingWeights_eq_none {s : String} (h : s ∉ ["yes", "no"]) :
    overtakingWeights s = none := by
  unfold overtakingWeights
  split <;> simp_all

theorem alcoholWeights_eq_none {s : String} (h : s ∉ ["yes", "no"]) :
    alcoholWeights s = none := by
  unfold alcoholWeights
  split <;> simp_all

theorem phoneUsageWeights_eq_none {s : String} (h : s ∉ ["yes", "no"]) :
    phoneUsageWeights s = none := by
  unfold phoneUsageWeights
  split <;> simp_all

/-! ## A failed lookup anywhere nullifies its section and the total -/

theorem vehicleDriverRisk?_eq_none (c : Conditions)
    (h : licenseValidWeights c.license_valid = none ∨ seatbeltWeights c.seatbelt = none) :
    vehicleDriverRisk? c = none := by
  unfold vehicleDriverRisk?
  rcases h with h | h <;>
    cases h1 : driverAgeWeights (calculate_age_risk c.driver_age) <;>
      cases h2 : experienceWeights (calculate_experience_risk c.experience) <;>
        cases h3 : licenseValidWeights c.license_valid <;>
          simp_all [Option.bind_eq_bind']

theorem environmentalRisk?_eq_none (c : Conditions)
    (h : roadSurfaceWeights c.road_surface = none ∨ visibilityWeights c.visibility = none ∨
      lightConditionWeights c.light_condition = none) :
    environmentalRisk? c = none := by
  unfold environmentalRisk?
  rcases h with h | h | h <;>
    cases h1 : roadSurfaceWeights c.road_surface <;>
      cases h2 : visibilityWeights c.visibility <;>
        simp_all [Option.bind_eq_bind']

theorem roadTrafficRisk?_eq_none (c : Conditions)
    (h : roadTypeWeights c.road_type = none ∨ roadDesignWeights c.road_design = none ∨
      trafficVolumeWeights c.traffic_volume = none) :
    roadTrafficRisk? c = none := by
  unfold roadTrafficRisk?
  rcases h with h | h | h <;>
    cases h1 : roadTypeWeights c.road_type <;>
      cases h2 : roadDesignWeights c.road_design <;>
        simp_all [Option.bind_eq_bind']

theorem timeAreaRisk?_eq_none (c : Conditions)
    (h : timeOfDayWeights c.time_of_day = none ∨ areaTypeWeights c.area_type = none) :
    timeAreaRisk? c = none := by
  unfold timeAreaRisk?
  rcases h with h | h <;>
    cases h1 : timeOfDayWeights c.time_of_day <;>
      simp_all [Option.bind_eq_bind']

theorem additionalRisk?_eq_none (c : Conditions)
    (h : overtakingWeights c.overtaking = none ∨ alcoholWeights c.alcohol = none ∨
      phoneUsageWeights c.phone_usage = none) :
    additionalRisk? c = none := by
  unfold additionalRisk?
  rcases h with h | h | h <;>
    cases h1 : overtakingWeights c.overtaking <;>
      cases h2 : alcoholWeights c.alcohol <;>
        simp_all [Option.bind_eq_bind']

theorem totalRisk?_eq_none (loc : String) (c : Conditions)
    (h : vehicleDriverRisk? c = none ∨ environmentalRisk? c = none ∨
      roadTrafficRisk? c = none ∨ timeAreaRisk? c = none ∨ additionalRisk? c = none) :
    totalRisk? loc c = none := by
  unfold totalRisk?
  rcases h with h | h | h | h | h <;>
    cases h1 : vehicleDriverRisk? c <;>
      cases h2 : environmentalRisk? c <;>
        cases h3 : roadTrafficRisk? c <;>
          cases h4 : timeAreaRisk? c <;>
            simp_all [Option.bind_eq_bind']
/-- C5: unknown `vehicle_type` or `weather` values fall back to the neutral
weight 0.3 and the call still succeeds; an out-of-domain value in any other
categorical field makes the call return the structured failure object
(`success = False` with the fixed message) rather than a raw exception. -/
theorem unknown_enum_handling :
    (∀ v : String, v ∉ ["Car", "Bike", "Truck", "Bus", "Auto-rickshaw"] →
      vehicleTypeWeights v = none ∧ (vehicleTypeWeights v).getD 0.3 = 0.3) ∧
    (∀ w : String, w ∉ ["Clear", "Rainy", "Foggy", "Snowy", "Stormy"] →
      weatherWeights w = none ∧ (weatherWeights w).getD 0.3 = 0.3) ∧
    (∀ (loc : String) (c : Conditions), validConditions c →
      ∃ r, predict_accident_risk loc c = PredictResult.ok r) ∧
    (∀ (loc : String) (c : Conditions),
      (c.license_valid ∉ ["yes", "no"] ∨
       c.seatbelt ∉ ["yes", "no"] ∨
       c.road_surface ∉ ["Dry", "Wet", "Icy", "Muddy"] ∨
       c.visibility ∉ ["high", "medium", "low"] ∨
       c.light_condition ∉ ["Daylight", "Night_with_lights", "Night_without_lights"] ∨
       c.road_type ∉ ["Highway", "City_Road", "Rural_Road"] ∨
       c.road_design ∉ ["Straight", "Curved", "Junction", "Roundabout"] ∨
       c.traffic_volume ∉ ["Low", "Medium", "High"] ∨
       c.time_of_day ∉ ["Morning", "Afternoon", "Evening", "Night"] ∨
       c.area_type ∉ ["Urban", "Suburban", "Rural"] ∨
       c.overtaking ∉ ["yes", "no"] ∨
       c.alcohol ∉ ["yes", "no"] ∨
       c.phone_usage ∉ ["yes", "no"]) →
      predict_accident_risk loc c =
        PredictResult.failure "Prediction calculation failed" loc) := by
  refine ⟨?_, ?_, ?_, ?_⟩
  · intro v hv
    have hn : vehicleTypeWeights v = none := by
      unfold vehicleTypeWeights
      split <;> simp_all
    exact ⟨hn, by rw [hn]; rfl⟩
  · intro w hw
    have hn : weatherWeights w = none := by
      unfold weatherWeights
      split <;> simp_all
    exact ⟨hn, by rw [hn]; rfl⟩
  · intro loc c hv
    obtain ⟨t, ht, -⟩ := totalRisk?_some loc c hv
    exact ⟨okResultOf loc c t, predict_eq_ok loc c t ht⟩
  · intro loc c h
    refine predict_eq_failure loc c (totalRisk?_eq_none loc c ?_)
    rcases h with h | h | h | h | h | h | h | h | h | h | h | h | h
    · exact Or.inl (vehicleDriverRisk?_eq_none c (Or.inl (licenseValidWeights_eq_none h)))
    · exact Or.inl (vehicleDriverRisk?_eq_none c (Or.inr (seatbeltWeights_eq_none h)))
    · exact Or.inr (Or.inl (environmentalRisk?_eq_none c
        (Or.inl (roadSurfaceWeights_eq_none h))))
    · exact Or.inr (Or.inl (environmentalRisk?_eq_none c
        (Or.inr (Or.inl (visibilityWeights_eq_none h)))))
    · exact Or.inr (Or.inl (environmentalRisk?_eq_none c
        (Or.inr (Or.inr (lightConditionWeights_eq_none h)))))
    · exact Or.inr (Or.inr (Or.inl (roadTrafficRisk?_eq_none c
        (Or.inl (roadTypeWeights_eq_none h)))))
    · exact Or.inr (Or.inr (Or.inl (roadTrafficRisk?_eq_none c
        (Or.inr (Or.inl (roadDesignWeights_eq_none h))))))
    · exact Or.inr (Or.inr (Or.inl (roadTrafficRisk?_eq_none c
        (Or.inr (Or.inr (trafficVolumeWeights_eq_none h))))))
    · exact Or.inr (Or.inr (Or.inr (Or.inl (timeAreaRisk?_eq_none c
        (Or.inl (timeOfDayWeights_eq_none h))))))
    · exact Or.inr (Or.inr (Or.inr (Or.inl (timeAreaRisk?_eq_none c
        (Or.inr (areaTypeWeights_eq_none h))))))
    · exact Or.inr (Or.inr (Or.inr (Or.inr (additionalRisk?_eq_none c
        (Or.inl (overtakingWeights_eq_none h))))))
    · exact Or.inr (Or.inr (Or.inr (Or.inr (additionalRisk?_eq_none c
        (Or.inr (Or.inl (alcoholWeights_eq_none h)))))))
    · exact Or.inr (Or.inr (Or.inr (Or.inr (additionalRisk?_eq_none c
        (Or.inr (Or.inr (phoneUsageWeights_eq_none h)))))))

theorem unknown_enum_handling_witness :
    (vehicleTypeWeights "Bicycle" = none ∧ (vehicleTypeWeights "Bicycle").getD 0.3 = 0.3) ∧
    (weatherWeights "Hazy" = none ∧ (weatherWeights "Hazy").getD 0.3 = 0.3) ∧
    (∃ r, predict_accident_risk "Mumbai"
      { defaultConditions with vehicle_type := "Bicycle" } = PredictResult.ok r) ∧
    predict_accident_risk "Mumbai" { defaultConditions with road_surface := "Oily" } =
      PredictResult.failure "Prediction calculation failed" "Mumbai" :=
  ⟨unknown_enum_handling.1 "Bicycle" (by decide),
   unknown_enum_handling.2.1 "Hazy" (by decide),
   unknown_enum_handling.2.2.1 "Mumbai" _ (by decide),
   unknown_enum_handling.2.2.2 "Mumbai" _
     (Or.inr (Or.inr (Or.inl (by decide))))⟩
/-- The additional-risk section shifts by exactly `history × 0.1`. -/
theorem additionalRisk?_history (c : Conditions) (h : ℕ) :
    additionalRisk? { c with accident_history := h } =
      (additionalRisk? { c with accident_history := 0 }).map (· + (h : ℚ) * 0.1) := by
  unfold additionalRisk?
  dsimp only
  cases h1 : overtakingWeights c.overtaking <;>
    cases h2 : alcoholWeights c.alcohol <;>
      cases h3 : phoneUsageWeights c.phone_usage <;>
        simp_all [Option.bind_eq_bind']

/-- The whole accumulated total shifts by exactly `history × 0.1`. -/
theorem totalRisk?_history (loc : String) (c : Conditions) (h : ℕ) :
    totalRisk? loc { c with accident_history := h } =
      (totalRisk? loc { c with accident_history := 0 }).map (· + (h : ℚ) * 0.1) := by
  have e1 : vehicleDriverRisk? { c with accident_history := h } = vehicleDriverRisk? c := rfl
  have e1z : vehicleDriverRisk? { c with accident_history := 0 } = vehicleDriverRisk? c := rfl
  have e2 : environmentalRisk? { c with accident_history := h } = environmentalRisk? c := rfl
  have e2z : environmentalRisk? { c with accident_history := 0 } = environmentalRisk? c := rfl
  have e3 : roadTrafficRisk? { c with accident_history := h } = roadTrafficRisk? c := rfl
  have e3z : roadTrafficRisk? { c with accident_history := 0 } = roadTrafficRisk? c := rfl
  have e4 : timeAreaRisk? { c with accident_history := h } = timeAreaRisk? c := rfl
  have e4z : timeAreaRisk? { c with accident_history := 0 } = timeAreaRisk? c := rfl
  unfold totalRisk?
  rw [e1, e1z, e2, e2z, e3, e3z, e4, e4z, additionalRisk?_history]
  cases q1 : vehicleDriverRisk? c <;>
    cases q2 : environmentalRisk? c <;>
      cases q3 : roadTrafficRisk? c <;>
        cases q4 : timeAreaRisk? c <;>
          cases q5 : additionalRisk? { c with accident_history := 0 } <;>
            simp_all [Option.bind_eq_bind'] <;> ring

/-- C9: with everything else fixed and valid, a larger accident history never
lowers the pre-jitter normalized risk; the seed ignores the history, so the
two calls draw the same jitter, and the returned risk_score is monotone as
well. -/
theorem accident_history_monotonicity (loc : String) (c : Conditions) (h1 h2 : ℕ)
    (hv : validConditions c) (hle : h1 ≤ h2) :
    ∃ t1 t2,
      totalRisk? loc { c with accident_history := h1 } = some t1 ∧
      totalRisk? loc { c with accident_history := h2 } = some t2 ∧
      t1 ≤ t2 ∧
      normalizedRisk t1 ≤ normalizedRisk t2 ∧
      generate_seed loc { c with accident_history := h1 } =
        generate_seed loc { c with accident_history := h2 } ∧
      ∃ r1 r2,
        predict_accident_risk loc { c with accident_history := h1 } = PredictResult.ok r1 ∧
        predict_accident_risk loc { c with accident_history := h2 } = PredictResult.ok r2 ∧
        r1.risk_score ≤ r2.risk_score := by
  have hv0 : validConditions { c with accident_history := 0 } := hv
  obtain ⟨t0, ht0, hb0⟩ := totalRisk?_some loc { c with accident_history := 0 } hv0
  have hm1 := totalRisk?_history loc c h1
  have hm2 := totalRisk?_history loc c h2
  rw [ht0] at hm1 hm2
  simp only [Option.map_some'] at hm1 hm2
  have hcast : (h1 : ℚ) ≤ (h2 : ℚ) := Nat.cast_le.mpr hle
  have hts : t0 + (h1 : ℚ) * 0.1 ≤ t0 + (h2 : ℚ) * 0.1 := by linarith
  have hseedeq : generate_seed loc { c with accident_history := h2 } =
      generate_seed loc { c with accident_history := h1 } := rfl
  refine ⟨t0 + (h1 : ℚ) * 0.1, t0 + (h2 : ℚ) * 0.1, hm1, hm2, hts,
    normalizedRisk_mono hts, rfl, ?_⟩
  refine ⟨_, _, predict_eq_ok _ _ _ hm1, predict_eq_ok _ _ _ hm2, ?_⟩
  rw [okResultOf_risk_score, okResultOf_risk_score, hseedeq]
  exact pyRound_mono 1
    (mul_le_mul_of_nonneg_right (finalRisk_mono _ hts) (by norm_num))

theorem accident_history_monotonicity_witness :
    validConditions defaultConditions ∧ 0 ≤ 5 ∧
    (∃ t1 t2,
      totalRisk? "Mumbai" { defaultConditions with accident_history := 0 } = some t1 ∧
      totalRisk? "Mumbai" { defaultConditions with accident_history := 5 } = some t2 ∧
      t1 ≤ t2 ∧
      normalizedRisk t1 ≤ normalizedRisk t2 ∧
      generate_seed "Mumbai" { defaultConditions with accident_history := 0 } =
        generate_seed "Mumbai" { defaultConditions with accident_history := 5 } ∧
      ∃ r1 r2,
        predict_accident_risk "Mumbai" { defaultConditions with accident_history := 0 } =
          PredictResult.ok r1 ∧
        predict_accident_risk "Mumbai" { defaultConditions with accident_history := 5 } =
          PredictResult.ok r2 ∧
        r1.risk_score ≤ r2.risk_score) :=
  ⟨by decide, by norm_num,
   accident_history_monotonicity "Mumbai" defaultConditions 0 5 (by decide) (by norm_num)⟩
/-- In every branch the third raw probability is defined as one minus the
other two, so the raw triple sums to exactly 1. -/
theorem rawProbs_sum (seed : ℕ) (f : ℚ) (code : ℕ) :
    (rawProbs seed f code).1 + (rawProbs seed f code).2.1 + (rawProbs seed f code).2.2 = 1 := by
  unfold rawProbs
  split_ifs <;> dsimp only <;> ring

/-- The normalization of lines 261–265 divides by the raw sum, which is
exactly 1, so it changes nothing. -/
theorem normProbs_rawProbs (seed : ℕ) (f : ℚ) (code : ℕ) :
    normProbs (rawProbs seed f code) = rawProbs seed f code := by
  unfold normProbs
  rw [rawProbs_sum]
  simp only [div_one]

theorem severityCode_eq_zero {f : ℚ} (h : (severityInfo f).2.1 = 0) : f < 0.3 := by
  by_contra hc
  unfold severityInfo at h
  rw [if_neg hc] at h
  split_ifs at h

theorem severityCode_eq_one {f : ℚ} (h : (severityInfo f).2.1 = 1) :
    (0.3 : ℚ) ≤ f ∧ f < 0.6 := by
  constructor
  · by_contra hc
    rw [not_le] at hc
    unfold severityInfo at h
    rw [if_pos hc] at h
    simp at h
  · by_contra hc
    rw [not_lt] at hc
    unfold severityInfo at h
    rw [if_neg (by linarith), if_neg (by linarith)] at h
    simp at h

theorem severityCode_eq_two {f : ℚ} (h : (severityInfo f).2.1 = 2) : (0.6 : ℚ) ≤ f := by
  by_contra hc
  rw [not_le] at hc
  unfold severityInfo at h
  by_cases h3 : f < 0.3
  · rw [if_pos h3] at h
    simp at h
  · rw [if_neg h3, if_pos hc] at h
    simp at h
/-- C3 (amended): the three probabilities sum to exactly 1 before the final
3-decimal rounding, and the returned rounded probabilities sum to 1 within
1.5e-3 (three roundings of at most 5e-4 each) — though not within 1e-6 in
general. -/
theorem probabilities_sum (loc : String) (c : Conditions) (t : ℚ)
    (h : totalRisk? loc c = some t) :
    ∃ r, predict_accident_risk loc c = PredictResult.ok r ∧
      ((normProbs (rawProbs (generate_seed loc c) (finalRisk (generate_seed loc c) t)
          (severityInfo (finalRisk (generate_seed loc c) t)).2.1)).1 +
       (normProbs (rawProbs (generate_seed loc c) (finalRisk (generate_seed loc c) t)
          (severityInfo (finalRisk (generate_seed loc c) t)).2.1)).2.1 +
       (normProbs (rawProbs (generate_seed loc c) (finalRisk (generate_seed loc c) t)
          (severityInfo (finalRisk (generate_seed loc c) t)).2.1)).2.2 = 1) ∧
      |r.probabilities.low + r.probabilities.medium + r.probabilities.high - 1| ≤ 0.0015 := by
  refine ⟨okResultOf loc c t, predict_eq_ok loc c t h, ?_, ?_⟩
  · rw [normProbs_rawProbs]
    exact rawProbs_sum _ _ _
  · rw [okResultOf_probabilities]
    dsimp only
    rw [normProbs_rawProbs]
    have hsum := rawProbs_sum (generate_seed loc c) (finalRisk (generate_seed loc c) t)
      (severityInfo (finalRisk (generate_seed loc c) t)).2.1
    have e1 := pyRound_abs_sub (rawProbs (generate_seed loc c)
      (finalRisk (generate_seed loc c) t)
      (severityInfo (finalRisk (generate_seed loc c) t)).2.1).1 3
    have e2 := pyRound_abs_sub (rawProbs (generate_seed loc c)
      (finalRisk (generate_seed loc c) t)
      (severityInfo (finalRisk (generate_seed loc c) t)).2.1).2.1 3
    have e3 := pyRound_abs_sub (rawProbs (generate_seed loc c)
      (finalRisk (generate_seed loc c) t)
      (severityInfo (finalRisk (generate_seed loc c) t)).2.1).2.2 3
    rw [abs_le] at e1 e2 e3 ⊢
    norm_num at e1 e2 e3 ⊢
    constructor <;> linarith

theorem probabilities_sum_witness :
    totalRisk? "Mumbai" defaultConditions = some 3.6 ∧
    (∃ r, predict_accident_risk "Mumbai" defaultConditions = PredictResult.ok r ∧
      ((normProbs (rawProbs (generate_seed "Mumbai" defaultConditions)
          (finalRisk (generate_seed "Mumbai" defaultConditions) 3.6)
          (severityInfo (finalRisk (generate_seed "Mumbai" defaultConditions) 3.6)).2.1)).1 +
       (normProbs (rawProbs (generate_seed "Mumbai" defaultConditions)
          (finalRisk (generate_seed "Mumbai" defaultConditions) 3.6)
          (severityInfo (finalRisk (generate_seed "Mumbai" defaultConditions) 3.6)).2.1)).2.1 +
       (normProbs (rawProbs (generate_seed "Mumbai" defaultConditions)
          (finalRisk (generate_seed "Mumbai" defaultConditions) 3.6)
          (severityInfo (finalRisk (generate_seed "Mumbai" defaultConditions) 3.6)).2.1)).2.2 = 1) ∧
      |r.probabilities.low + r.probabilities.medium + r.probabilities.high - 1| ≤ 0.0015) :=
  ⟨by with_unfolding_all decide,
   probabilities_sum "Mumbai" defaultConditions 3.6 (by with_unfolding_all decide)⟩

/-- C3 (counterexample): at location "Mumbai" with the neutral defaults and
`time_of_day = Morning` — a valid input — the three probabilities returned
to the caller sum to 1.001, outside the claimed 1e-6 tolerance. -/
theorem probabilities_sum_counterexample :
    validConditions morningConditions ∧
    ¬(|probSum (predict_accident_risk "Mumbai" morningConditions) - 1| ≤ 1 / 1000000) := by
  refine ⟨by decide, ?_⟩
  have ht : totalRisk? "Mumbai" morningConditions = some 3.7 := by
    with_unfolding_all decide
  rw [predict_eq_ok "Mumbai" morningConditions 3.7 ht]
  simp only [probSum, probabilitiesOf, okResultOf_probabilities, finalRisk, randomFactor,
    severityInfo, rawProbs, normProbs, morningSeed, pyUniform, randomDouble121957498x0,
    randomDouble121957498x1, randomDouble121957498x2]
  norm_num [normalizedRisk, pyRound, roundHalfEven]
  rw [abs_of_pos (by norm_num : (0 : ℚ) < 1 / 1000)]
  norm_num
/-- C10 (amended): the returned probabilities are non-negative whenever the
severity bucket is Low or Medium; in the High bucket they are non-negative
provided the raw bucket probability `final + U(0.1, 0.2)` does not exceed 1.
(When it does exceed 1 — reachable at valid high-risk inputs — the medium
and low probabilities go negative.) -/
theorem probabilities_nonneg_cases (loc : String) (c : Conditions) (t : ℚ)
    (h : totalRisk? loc c = some t) :
    ∃ r, predict_accident_risk loc c = PredictResult.ok r ∧
      ((severityInfo (finalRisk (generate_seed loc c) t)).2.1 = 0 ∨
        (severityInfo (finalRisk (generate_seed loc c) t)).2.1 = 1 →
        0 ≤ r.probabilities.low ∧ 0 ≤ r.probabilities.medium ∧ 0 ≤ r.probabilities.high) ∧
      ((severityInfo (finalRisk (generate_seed loc c) t)).2.1 = 2 →
        finalRisk (generate_seed loc c) t +
          pyUniform (generate_seed loc c) 1 0.1 0.2 ≤ 1 →
        0 ≤ r.probabilities.low ∧ 0 ≤ r.probabilities.medium ∧ 0 ≤ r.probabilities.high) := by
  have hf0 : 0 ≤ finalRisk (generate_seed loc c) t := finalRisk_nonneg _ _
  have hu1a := pyUniform_mem (generate_seed loc c) 1 0.4 0.5 (by norm_num)
  have hu1b := pyUniform_mem (generate_seed loc c) 1 0.2 0.3 (by norm_num)
  have hu1c := pyUniform_mem (generate_seed loc c) 1 0.1 0.2 (by norm_num)
  have hu2a := pyUniform_mem (generate_seed loc c) 2 0.6 0.8 (by norm_num)
  have hu2b := pyUniform_mem (generate_seed loc c) 2 0.3 0.6 (by norm_num)
  have hu2c := pyUniform_mem (generate_seed loc c) 2 0.4 0.7 (by norm_num)
  refine ⟨okResultOf loc c t, predict_eq_ok loc c t h, ?_, ?_⟩
  · intro hcode
    rw [okResultOf_probabilities]
    dsimp only
    rw [normProbs_rawProbs]
    rcases hcode with hc | hc
    · have hf3 : finalRisk (generate_seed loc c) t < 0.3 := severityCode_eq_zero hc
      rw [hc]
      unfold rawProbs
      rw [if_pos rfl]
      dsimp only
      refine ⟨pyRound_nonneg 3 (by linarith [hu1a.1]),
        pyRound_nonneg 3 (by nlinarith [hu1a.1, hu1a.2, hu2a.1, hu2a.2]),
        pyRound_nonneg 3 (by nlinarith [hu1a.1, hu1a.2, hu2a.1, hu2a.2])⟩
    · obtain ⟨hf3, hf6⟩ := severityCode_eq_one hc
      rw [hc]
      unfold rawProbs
      rw [if_neg (by norm_num), if_pos rfl]
      dsimp only
      refine ⟨pyRound_nonneg 3 (by nlinarith [hu1b.1, hu1b.2, hu2b.1, hu2b.2]),
        pyRound_nonneg 3 (by linarith [hu1b.1]),
        pyRound_nonneg 3 (by nlinarith [hu1b.1, hu1b.2, hu2b.1, hu2b.2])⟩
  · intro hc hle
    have hf6 : (0.6 : ℚ) ≤ finalRisk (generate_seed loc c) t := severityCode_eq_two hc
    rw [okResultOf_probabilities]
    dsimp only
    rw [normProbs_rawProbs, hc]
    unfold rawProbs
    rw [if_neg (by norm_num), if_neg (by norm_num)]
    dsimp only
    refine ⟨pyRound_nonneg 3 (by nlinarith [hu1c.1, hu1c.2, hu2c.1, hu2c.2]),
      pyRound_nonneg 3 (by nlinarith [hu1c.1, hu1c.2, hu2c.1, hu2c.2]),
      pyRound_nonneg 3 (by linarith [hu1c.1])⟩

theorem probabilities_nonneg_cases_witness :
    totalRisk? "Mumbai" defaultConditions = some 3.6 ∧
    (∃ r, predict_accident_risk "Mumbai" defaultConditions = PredictResult.ok r ∧
      ((severityInfo (finalRisk (generate_seed "Mumbai" defaultConditions) 3.6)).2.1 = 0 ∨
        (severityInfo (finalRisk (generate_seed "Mumbai" defaultConditions) 3.6)).2.1 = 1 →
        0 ≤ r.probabilities.low ∧ 0 ≤ r.probabilities.medium ∧ 0 ≤ r.probabilities.high) ∧
      ((severityInfo (finalRisk (generate_seed "Mumbai" defaultConditions) 3.6)).2.1 = 2 →
        finalRisk (generate_seed "Mumbai" defaultConditions) 3.6 +
          pyUniform (generate_seed "Mumbai" defaultConditions) 1 0.1 0.2 ≤ 1 →
        0 ≤ r.probabilities.low ∧ 0 ≤ r.probabilities.medium ∧ 0 ≤ r.probabilities.high)) :=
  ⟨by with_unfolding_all decide,
   probabilities_nonneg_cases "Mumbai" defaultConditions 3.6 (by with_unfolding_all decide)⟩

/-- C10 (counterexample): at the valid maximal-risk input the High-bucket
raw probability exceeds 1 for every possible draw, and the returned medium
probability is negative. -/
theorem probabilities_nonneg_counterexample :
    validConditions maxRiskConditions ∧
    (probabilitiesOf (predict_accident_risk "Delhi" maxRiskConditions)).medium < 0 := by
  refine ⟨by decide, ?_⟩
  have ht : totalRisk? "Delhi" maxRiskConditions = some 15.7 := by
    with_unfolding_all decide
  rw [predict_eq_ok _ _ _ ht]
  simp only [probabilitiesOf]
  rw [okResultOf_probabilities]
  dsimp only
  have hn : normalizedRisk 15.7 = 0.95 := by
    unfold normalizedRisk
    rw [show (15.7 : ℚ) / 8 = 1.9625 by norm_num, max_eq_left (by norm_num),
      min_eq_right (by norm_num)]
  have hj := randomFactor_mem (generate_seed "Delhi" maxRiskConditions)
  have hf_lb : (0.9025 : ℚ) ≤ finalRisk (generate_seed "Delhi" maxRiskConditions) 15.7 := by
    unfold finalRisk
    rw [hn]
    exact le_min (by nlinarith [hj.1]) (by norm_num)
  have hf_ub := finalRisk_le (generate_seed "Delhi" maxRiskConditions) 15.7
  have hcode : (severityInfo (finalRisk (generate_seed "Delhi" maxRiskConditions) 15.7)).2.1
      = 2 := by
    unfold severityInfo
    rw [if_neg (by linarith), if_neg (by linarith)]
  rw [normProbs_rawProbs, hcode]
  unfold rawProbs
  rw [if_neg (by norm_num), if_neg (by norm_num)]
  dsimp only
  have hu1 := pyUniform_mem (generate_seed "Delhi" maxRiskConditions) 1 0.1 0.2 (by norm_num)
  have hu2 := pyUniform_mem (generate_seed "Delhi" maxRiskConditions) 2 0.4 0.7 (by norm_num)
  have hover : 1 - (finalRisk (generate_seed "Delhi" maxRiskConditions) 15.7 +
      pyUniform (generate_seed "Delhi" maxRiskConditions) 1 0.1 0.2) ≤ -0.0025 := by
    linarith [hu1.1]
  have hneg : (1 - (finalRisk (generate_seed "Delhi" maxRiskConditions) 15.7 +
      pyUniform (generate_seed "Delhi" maxRiskConditions) 1 0.1 0.2)) *
      pyUniform (generate_seed "Delhi" maxRiskConditions) 2 0.4 0.7 ≤ -0.001 := by
    nlinarith [hu2.1, hu2.2, hover]
  have heq : pyRound (-0.001 : ℚ) 3 = -0.001 := by
    have h := pyRound_eq_self 3 (-1)
    norm_num at h
    convert h using 2 <;> norm_num
  have hmono := pyRound_mono 3 hneg
  rw [heq] at hmono
  linarith
